import Mathlib

/-! SwissAirDry firmware: session manager (`firmware/common/mqtt_client.h`).

A shallow embedding of the class `SwissAirDryMQTT`.  The vendor broker client
(`PubSubClient`) is not part of the repository; every call the class makes on it
is recorded, in program order, as a `Call`, and every value the class reads back
from it (the result of `connect`, `publish`, `subscribe`, `unsubscribe` and the
`connected()` flag) is an explicit input or state component.  `Serial` logging is
not broker traffic and is left out.
-/

/-- Number of values of `unsigned long` on the ESP8266 and ESP32 (32 bits). -/
def ULONG_RANGE : Nat := 4294967296

/-- Subtraction of two `unsigned long` values, as C++ computes it (modulo `2^32`). -/
def ulongSub (a b : Nat) : Nat :=
  (a % ULONG_RANGE + ULONG_RANGE - b % ULONG_RANGE) % ULONG_RANGE

/-- One call made on the vendor broker client `mqttClient`. -/
inductive Call where
  | setServer (host : String) (port : Int)
  | setCallback (callback : Nat)
  | setBufferSize (size : Nat)
  | connect (clientId : String) (credentials : Option (String × String))
      (willTopic : String) (willQos : Nat) (willRetain : Bool) (willMessage : String)
  | subscribe (topic : String)
  | unsubscribe (topic : String)
  | publish (topic : String) (payload : String) (retain : Bool)
  | pump
  deriving DecidableEq, Repr

namespace Call

/-- Recognises a connection attempt. -/
def isConnect : Call → Bool
  | connect _ _ _ _ _ _ => true
  | _ => false

/-- Recognises a subscription request. -/
def isSubscribe : Call → Bool
  | subscribe _ => true
  | _ => false

/-- Recognises an unsubscription request. -/
def isUnsubscribe : Call → Bool
  | unsubscribe _ => true
  | _ => false

/-- Recognises an outbound message. -/
def isPublish : Call → Bool
  | publish _ _ _ => true
  | _ => false

end Call

/-- The fields of `class SwissAirDryMQTT`.  `connected` is what
`mqttClient.connected()` reports; `messageCallback` stands for the function
pointer (handle `0` is `defaultCallback`). -/
structure SwissAirDryMQTT where
  connected : Bool
  deviceId : String
  mqttBroker : String
  mqttPort : Int
  mqttUsername : String
  mqttPassword : String
  messageCallback : Nat
  willTopic : String
  willMessage : String
  lastReconnectAttempt : Nat
  subscribedTopics : List String
  deriving DecidableEq, Repr

/-- What a member function hands back: its return value, the object afterwards,
and the calls it made on the broker client, in order. -/
structure Outcome where
  result : Bool
  state : SwissAirDryMQTT
  calls : List Call
  deriving DecidableEq, Repr

namespace SwissAirDryMQTT

/-- The presence payload published after a successful connection. -/
def ONLINE_PAYLOAD : String := "\x7b\"online\":true\x7d"

/-- The last-will payload set by `init`. -/
def OFFLINE_PAYLOAD : String := "\x7b\"online\":false\x7d"

/-- The object as the constructor `SwissAirDryMQTT()` leaves it: empty strings,
no stored topic, `lastReconnectAttempt = 0`, broker client not connected.  The
constructor leaves `mqttPort` and `messageCallback` without a value; `init`
assigns both before anything reads them, and `0` stands in for them here. -/
def mk0 : SwissAirDryMQTT :=
  { connected := false, deviceId := "", mqttBroker := "", mqttPort := 0,
    mqttUsername := "", mqttPassword := "", messageCallback := 0,
    willTopic := "", willMessage := "", lastReconnectAttempt := 0,
    subscribedTopics := [] }

/-- The `mqttClient.connect(...)` call of `reconnect()`: with credentials when
`mqttUsername` is not empty, without them otherwise. -/
def connectCall (s : SwissAirDryMQTT) : Call :=
  let clientId := "SwissAirDry-" ++ s.deviceId
  if s.mqttUsername.length > 0 then
    Call.connect clientId (some (s.mqttUsername, s.mqttPassword)) s.willTopic 0 true s.willMessage
  else
    Call.connect clientId none s.willTopic 0 true s.willMessage

/-- `boolean reconnect()`; `connectOk` is what `mqttClient.connect` returns, and
`mqttClient.connected()` reports that value once the call is over. -/
def reconnect (s : SwissAirDryMQTT) (connectOk : Bool) : Outcome :=
  let connected := connectOk
  if connected then
    let statusTopic := "swissairdry/" ++ s.deviceId ++ "/status"
    { result := connected,
      state := { s with connected := true },
      calls := connectCall s :: (s.subscribedTopics.map Call.subscribe
                ++ [Call.publish statusTopic ONLINE_PAYLOAD true]) }
  else
    { result := connected,
      state := { s with connected := false },
      calls := [connectCall s] }

/-- `void init(broker, port, username, password, device_id, callback)`. -/
def init (s : SwissAirDryMQTT) (broker : String) (port : Int) (username password : String)
    (device_id : String) (callback : Nat) : SwissAirDryMQTT × List Call :=
  let s1 := { s with mqttBroker := broker, mqttPort := port, mqttUsername := username,
                     mqttPassword := password, deviceId := device_id,
                     messageCallback := callback }
  let s2 := { s1 with willTopic := "swissairdry/" ++ s1.deviceId ++ "/status",
                      willMessage := OFFLINE_PAYLOAD }
  (s2, [Call.setServer s2.mqttBroker s2.mqttPort, Call.setCallback s2.messageCallback,
        Call.setBufferSize 1024])

/-- `void loop()`; `millis` is the time since boot in milliseconds (the clock
reading is its low 32 bits) and `connectOk` is what `mqttClient.connect` returns
should this call attempt a connection. -/
def loop (s : SwissAirDryMQTT) (millis : Nat) (connectOk : Bool) : SwissAirDryMQTT × List Call :=
  if !s.connected then
    let now := millis % ULONG_RANGE
    if ulongSub now s.lastReconnectAttempt > 5000 then
      let s1 := { s with lastReconnectAttempt := now }
      let r := reconnect s1 connectOk
      if r.result then
        ({ r.state with lastReconnectAttempt := 0 }, r.calls)
      else
        (r.state, r.calls)
    else
      (s, [])
  else
    (s, [Call.pump])

/-- `boolean isConnected()`. -/
def isConnected (s : SwissAirDryMQTT) : Bool :=
  s.connected

/-- `boolean publish(topic, payload, retain)`; `transportOk` is what
`mqttClient.publish` returns when it is called. -/
def publish (s : SwissAirDryMQTT) (topic payload : String) (retain : Bool)
    (transportOk : Bool) : Outcome :=
  if !s.connected then
    { result := false, state := s, calls := [] }
  else
    { result := transportOk, state := s, calls := [Call.publish topic payload retain] }

/-- `boolean subscribe(topic)`; `transportOk` is what `mqttClient.subscribe`
returns when it is called. -/
def subscribe (s : SwissAirDryMQTT) (topic : String) (transportOk : Bool) : Outcome :=
  if !s.connected then
    { result := false,
      state := { s with subscribedTopics := s.subscribedTopics ++ [topic] },
      calls := [] }
  else
    let s1 :=
      if topic ∈ s.subscribedTopics then s
      else { s with subscribedTopics := s.subscribedTopics ++ [topic] }
    { result := transportOk, state := s1, calls := [Call.subscribe topic] }

/-- `boolean unsubscribe(topic)`; `std::find` followed by `erase` removes the
first occurrence.  `transportOk` is what `mqttClient.unsubscribe` returns. -/
def unsubscribe (s : SwissAirDryMQTT) (topic : String) (transportOk : Bool) : Outcome :=
  let s1 := { s with subscribedTopics := s.subscribedTopics.erase topic }
  if !s1.connected then
    { result := false, state := s1, calls := [] }
  else
    { result := transportOk, state := s1, calls := [Call.unsubscribe topic] }

end SwissAirDryMQTT

/-- What can happen to a session manager after `init`: a call of one of its
member functions (with the values the broker client returns in it) or the
broker client reporting that the session is gone. -/
inductive Event where
  | tick (millis : Nat) (connectOk : Bool)
  | publish (topic payload : String) (retain : Bool) (transportOk : Bool)
  | subscribe (topic : String) (transportOk : Bool)
  | unsubscribe (topic : String) (transportOk : Bool)
  | sessionLoss
  deriving DecidableEq, Repr

namespace SwissAirDryMQTT

/-- The object after one event and the broker-client calls of that event. -/
def step (s : SwissAirDryMQTT) : Event → SwissAirDryMQTT × List Call
  | Event.tick millis connectOk => loop s millis connectOk
  | Event.publish topic payload retain ok =>
      ((publish s topic payload retain ok).state, (publish s topic payload retain ok).calls)
  | Event.subscribe topic ok => ((subscribe s topic ok).state, (subscribe s topic ok).calls)
  | Event.unsubscribe topic ok =>
      ((unsubscribe s topic ok).state, (unsubscribe s topic ok).calls)
  | Event.sessionLoss => ({ s with connected := false }, [])

/-- The object after a sequence of events and all broker-client calls made, in order. -/
def run (s : SwissAirDryMQTT) : List Event → SwissAirDryMQTT × List Call
  | [] => (s, [])
  | e :: es => ((run (step s e).1 es).1, (step s e).2 ++ (run (step s e).1 es).2)

end SwissAirDryMQTT

namespace SwissAirDryMQTT

/-- The times at which `loop()` is called in a sequence of events. -/
def tickTimes : List Event → List Nat
  | [] => []
  | Event.tick millis _ :: es => millis :: tickTimes es
  | _ :: es => tickTimes es

/-- The connection attempts of a run: for every `loop()` call that reached
`mqttClient.connect`, its time and what `connect` returned. -/
def attemptLog (s : SwissAirDryMQTT) : List Event → List (Nat × Bool)
  | [] => []
  | Event.tick millis connectOk :: es =>
      (if (loop s millis connectOk).2.any Call.isConnect then [(millis, connectOk)] else [])
        ++ attemptLog (loop s millis connectOk).1 es
  | e :: es => attemptLog (step s e).1 es

/-- The topics of the subscription requests among some broker-client calls. -/
def subscribeRequests : List Call → List String
  | [] => []
  | Call.subscribe topic :: cs => topic :: subscribeRequests cs
  | _ :: cs => subscribeRequests cs

/-- A registry call of the application: `subscribe(topic)` or `unsubscribe(topic)`. -/
inductive RegistryOp where
  | sub (topic : String)
  | unsub (topic : String)
  deriving DecidableEq, Repr

/-- The member-function call a registry operation stands for. -/
def RegistryOp.toEvent : RegistryOp → Event
  | RegistryOp.sub topic => Event.subscribe topic false
  | RegistryOp.unsub topic => Event.unsubscribe topic false

/-- The registry as the specification words it: an ordered set in which
`subscribe` inserts at the end unless the topic is already present and
`unsubscribe` removes the topic. -/
def specRegistry : List String → List RegistryOp → List String
  | r, [] => r
  | r, RegistryOp.sub topic :: ops =>
      specRegistry (if topic ∈ r then r else r ++ [topic]) ops
  | r, RegistryOp.unsub topic :: ops => specRegistry (r.filter (fun x => x != topic)) ops

end SwissAirDryMQTT

namespace SwissAirDryMQTT

/-- Sample data: the session manager of device `abc123` part-way through
`setup()` of the ESP8266 firmware, initialised and subscribed to the first two
of its four command topics, still disconnected. -/
def sampleSession : SwissAirDryMQTT :=
  (run (init mk0 "broker.local" 1883 "" "" "abc123" 1).1
    [Event.subscribe "swissairdry/abc123/config" false,
     Event.subscribe "swissairdry/abc123/control" false]).1

end SwissAirDryMQTT

/-! SwissAirDry firmware: update handler (`firmware/common/ota.h`) and the
dispatcher that calls it (`handleOtaUpdateMessage` in `firmware/esp8266/main.cpp`).

The transfer (`ESPhttpUpdate` / `httpUpdate`), the JSON library (`ArduinoJson`)
and the display are vendor code or other classes; what they hand to the update
handler is an explicit input and what the handler asks of them is recorded, in
program order, as an `Effect`. -/

/-- Which firmware is compiled: `#ifdef ESP8266` gives the progress callback
`int` arguments, the ESP32 build gives it `size_t` arguments. -/
inductive Target where
  | esp8266
  | esp32
  deriving DecidableEq, Repr

/-- A value to its 32-bit two's-complement `int`. -/
def wrapInt (x : Int) : Int :=
  (x + 2147483648) % 4294967296 - 2147483648

/-- A value to its 32-bit `size_t`. -/
def wrapSizeT (x : Int) : Int :=
  x % 4294967296

/-- A value stored in a JSON document by the firmware: a string or an `int`. -/
inductive JsonValue where
  | str (s : String)
  | int (n : Int)
  deriving DecidableEq, Repr

/-- How `serializeJson` writes one character of a string: the quote, the
backslash and the five control characters with a short form are escaped,
everything else is copied. -/
def escapeJsonChar (c : Char) : String :=
  if c = Char.ofNat 34 then "\\\""
  else if c = Char.ofNat 92 then "\\\\"
  else if c = Char.ofNat 8 then "\\b"
  else if c = Char.ofNat 12 then "\\f"
  else if c = Char.ofNat 10 then "\\n"
  else if c = Char.ofNat 13 then "\\r"
  else if c = Char.ofNat 9 then "\\t"
  else c.toString

/-- A string as `serializeJson` writes it, between quotes. -/
def jsonQuote (s : String) : String :=
  "\"" ++ String.join (s.toList.map escapeJsonChar) ++ "\""

/-- One member `"key":value` of a serialized document. -/
def jsonMember (kv : String × JsonValue) : String :=
  match kv.2 with
  | JsonValue.str s => jsonQuote kv.1 ++ ":" ++ jsonQuote s
  | JsonValue.int n => jsonQuote kv.1 ++ ":" ++ toString n

/-- `serializeJson(doc, payload)` for a document built by `doc[key] = value`
assignments in the given order: the compact object with the members in
assignment order.  The capacity given to `DynamicJsonDocument` is not part of
this model. -/
def serializeJson (doc : List (String × JsonValue)) : String :=
  "\x7b" ++ ",".intercalate (doc.map jsonMember) ++ "\x7d"

/-- Modelled from the spec: the result type of the transfer collaborator (its
declaration is in the vendor header of `ESPhttpUpdate` / `httpUpdate`, which is
not in the repository); the specification names the three results success,
failure and no-update-available, here under the names the `switch` uses. -/
inductive HTTPUpdateResult where
  | HTTP_UPDATE_FAILED
  | HTTP_UPDATE_NO_UPDATES
  | HTTP_UPDATE_OK
  deriving DecidableEq, Repr

/-- What one call of `update(url)` on the transfer collaborator does, seen from
the update handler: the `(progress, total)` pairs it hands to the registered
progress callback, in order, the value it returns and what
`getLastErrorString()` says afterwards. -/
structure Transfer where
  progress : List (Int × Int)
  ret : HTTPUpdateResult
  lastErrorString : String
  deriving DecidableEq, Repr

/-- Something the firmware asks of its surroundings during an update. -/
inductive Effect where
  | client (c : Call)
  | session (c : Call)
  | onProgress
  | update (url : String)
  | delay (ms : Nat)
  | display (message : String)
  deriving DecidableEq, Repr

namespace Effect

/-- The topic and payload of a message handed to a broker client, if the effect is one. -/
def published : Effect → Option (String × String)
  | client (Call.publish topic payload _) => some (topic, payload)
  | session (Call.publish topic payload _) => some (topic, payload)
  | _ => none

/-- Recognises a call of the transfer collaborator. -/
def isUpdate : Effect → Bool
  | update _ => true
  | _ => false

end Effect

/-- The fields of `class SwissAirDryOTA`. -/
structure SwissAirDryOTA where
  deviceId : String
  currentVersion : String
  updateInProgress : Bool
  updateResult : String
  updateErrorMessage : String
  deriving DecidableEq, Repr

/-- What `startUpdate` hands back: its return value, the object afterwards and
the effects it had, in order.  `seen` is the object as it was while the transfer
collaborator ran, which is what `isUpdateInProgress()`, `getUpdateResult()` and
`getUpdateErrorMessage()` return when read from inside `update(url)` or the
progress callback: first as `update(url)` found it, then as each invocation of
the progress callback left it.  It is empty when the transfer is not called. -/
structure OtaOutcome where
  result : Bool
  state : SwissAirDryOTA
  effects : List Effect
  seen : List SwissAirDryOTA := []
  deriving DecidableEq, Repr

namespace SwissAirDryOTA

/-- The object as the constructor `SwissAirDryOTA()` leaves it. -/
def mk0 : SwissAirDryOTA :=
  { deviceId := "", currentVersion := "", updateInProgress := false,
    updateResult := "", updateErrorMessage := "" }

/-- `void init(String id, String version)`: the two assignments; the
registration of the `ArduinoOTA` handlers, which only log, is left out. -/
def init (s : SwissAirDryOTA) (id version : String) : SwissAirDryOTA :=
  { s with deviceId := id, currentVersion := version }

/-- `int percent = (progress * 100) / total;` in the callback's integer type:
`int` with truncating division on the ESP8266, `size_t` converted to `int` on
the ESP32, both 32 bits wide and wrapping.  The arguments are values of that
type.  Division by zero has no value: the processor raises an exception. -/
def percent (target : Target) (progress total : Int) : Option Int :=
  if total = 0 then none
  else
    match target with
    | Target.esp8266 => some (wrapInt (Int.tdiv (wrapInt (progress * 100)) total))
    | Target.esp32 => some (wrapInt (wrapSizeT (progress * 100) / total))

/-- The message `updateCallback` publishes on `swissairdry/<deviceId>/ota/progress`
through the global broker client `mqttClient`. -/
def progressPublish (s : SwissAirDryOTA) (percent : Int) : Effect :=
  let payload := serializeJson [("progress", JsonValue.int percent)]
  let topic := "swissairdry/" ++ s.deviceId ++ "/ota/progress"
  Effect.client (Call.publish topic payload false)

/-- `void updateCallback(progress, total)`: the object afterwards and the
message handed to the global broker client; `none` when the division stops the
program. -/
def updateCallback (target : Target) (s : SwissAirDryOTA) (progress total : Int) :
    Option (SwissAirDryOTA × List Effect) :=
  match percent target progress total with
  | none => none
  | some p => some (s, [progressPublish s p])

/-- The progress callback invoked once for every pair, in order, as the transfer
collaborator does during `update(url)`. -/
def runCallbacks (target : Target) (s : SwissAirDryOTA) :
    List (Int × Int) → Option (SwissAirDryOTA × List Effect)
  | [] => some (s, [])
  | (progress, total) :: rest =>
    match updateCallback target s progress total with
    | none => none
    | some (s1, effects1) =>
      match runCallbacks target s1 rest with
      | none => none
      | some (s2, effects2) => some (s2, effects1 ++ effects2)

/-- The object during `update(url)`: as the call finds it, then as each
invocation of the progress callback leaves it, in order, up to an invocation
that stops the program. -/
def transferStates (target : Target) (s : SwissAirDryOTA) :
    List (Int × Int) → List SwissAirDryOTA
  | [] => [s]
  | (progress, total) :: rest =>
    s :: (match updateCallback target s progress total with
          | none => []
          | some (s1, _) => transferStates target s1 rest)

/-- The message `startUpdate` publishes on `swissairdry/<deviceId>/ota/status`. -/
def statusPublish (s : SwissAirDryOTA) (status message version : String) : Effect :=
  let payload := serializeJson [("status", JsonValue.str status),
    ("message", JsonValue.str message), ("version", JsonValue.str version)]
  let topic := "swissairdry/" ++ s.deviceId ++ "/ota/status"
  Effect.client (Call.publish topic payload false)

set_option linter.unusedVariables false in
/-- `bool startUpdate(String url, String expectedMd5, String newVersion)`;
`transfer` is what the transfer collaborator does when `update(url)` is called.
`none` when a progress callback stops the program. -/
def startUpdate (target : Target) (s : SwissAirDryOTA) (url expectedMd5 newVersion : String)
    (transfer : Transfer) : Option OtaOutcome :=
  if s.updateInProgress then
    some { result := false, state := s, effects := [] }
  else if newVersion = s.currentVersion then
    some { result := false, state := s, effects := [] }
  else
    let s1 := { s with updateInProgress := true, updateResult := "", updateErrorMessage := "" }
    match runCallbacks target s1 transfer.progress with
    | none => none
    | some (s2, progressEffects) =>
      let ret := transfer.ret
      let s3 := { s2 with updateInProgress := false }
      let started := Effect.onProgress :: Effect.update url :: progressEffects
      let seen := transferStates target s1 transfer.progress
      match ret with
      | HTTPUpdateResult.HTTP_UPDATE_FAILED =>
        let s4 := { s3 with updateResult := "failed",
                            updateErrorMessage := transfer.lastErrorString }
        some { result := false, state := s4,
               effects := started ++ [statusPublish s4 "failed" s4.updateErrorMessage newVersion],
               seen := seen }
      | HTTPUpdateResult.HTTP_UPDATE_NO_UPDATES =>
        let s4 := { s3 with updateResult := "no_updates" }
        some { result := false, state := s4,
               effects := started ++
                 [statusPublish s4 "no_updates" "No updates available" s4.currentVersion],
               seen := seen }
      | HTTPUpdateResult.HTTP_UPDATE_OK =>
        let s4 := { s3 with updateResult := "success" }
        some { result := true, state := s4,
               effects := started ++
                 [statusPublish s4 "completed" "Update successful" newVersion,
                  Effect.delay 1000],
               seen := seen }

/-- `bool isUpdateInProgress()`. -/
def isUpdateInProgress (s : SwissAirDryOTA) : Bool :=
  s.updateInProgress

/-- `String getUpdateResult()`. -/
def getUpdateResult (s : SwissAirDryOTA) : String :=
  s.updateResult

/-- `String getUpdateErrorMessage()`. -/
def getUpdateErrorMessage (s : SwissAirDryOTA) : String :=
  s.updateErrorMessage

/-- An update handler as `setup()` leaves it on device `abc123` running 1.0.0. -/
def sampleOta : SwissAirDryOTA :=
  init mk0 "abc123" "1.0.0"

/-- A transfer that reports progress three times and then the given result. -/
def sampleTransfer (ret : HTTPUpdateResult) (lastErrorString : String) : Transfer :=
  { progress := [(0, 4096), (2048, 4096), (4096, 4096)], ret := ret,
    lastErrorString := lastErrorString }

end SwissAirDryOTA

/-- The fields of the update message that `handleOtaUpdateMessage` reads after
`deserializeJson`: `doc["version"]`, `doc["url"]` and `doc["md5_hash"]`. -/
structure OtaRequest where
  version : String
  url : String
  md5_hash : String
  deriving DecidableEq, Repr

/-- The global objects of `firmware/esp8266/main.cpp` that the update dispatcher
uses: `config.otaEnabled`, `config.deviceId`, `mqtt` and `ota`. -/
structure Firmware where
  otaEnabled : Bool
  deviceId : String
  mqtt : SwissAirDryMQTT
  ota : SwissAirDryOTA
  deriving DecidableEq, Repr

namespace Firmware

/-- `#define FIRMWARE_VERSION "1.0.0"`. -/
def FIRMWARE_VERSION : String := "1.0.0"

/-- `void handleOtaUpdateMessage(String message)`; `message` is `none` when
`deserializeJson` reports an error, `publishOk` is what the broker client returns
to `mqtt.publish`, `transfer` is what the transfer collaborator does should
`ota.startUpdate` call it.  `none` when a progress callback stops the program. -/
def handleOtaUpdateMessage (fw : Firmware) (message : Option OtaRequest) (publishOk : Bool)
    (transfer : Transfer) : Option (Firmware × List Effect) :=
  match message with
  | none => some (fw, [])
  | some doc =>
    let topic := "swissairdry/" ++ fw.deviceId ++ "/ota/status"
    if !fw.otaEnabled then
      let errorPayload := serializeJson [("status", JsonValue.str "error"),
        ("message", JsonValue.str "OTA updates are disabled")]
      let r := SwissAirDryMQTT.publish fw.mqtt topic errorPayload false publishOk
      some ({ fw with mqtt := r.state }, r.calls.map Effect.session)
    else
      let version := doc.version
      let url := doc.url
      let md5Hash := doc.md5_hash
      let shown := [Effect.display "OTA Update", Effect.display ("Version: " ++ version)]
      if version ≠ FIRMWARE_VERSION then
        let statusPayload := serializeJson [("status", JsonValue.str "started"),
          ("version", JsonValue.str version)]
        let r := SwissAirDryMQTT.publish fw.mqtt topic statusPayload false publishOk
        match SwissAirDryOTA.startUpdate Target.esp8266 fw.ota url md5Hash version transfer with
        | none => none
        | some out =>
          some ({ fw with mqtt := r.state, ota := out.state },
            shown ++ r.calls.map Effect.session ++ out.effects)
      else
        let statusPayload := serializeJson [("status", JsonValue.str "skipped"),
          ("message", JsonValue.str "Already on the latest version"),
          ("version", JsonValue.str version)]
        let r := SwissAirDryMQTT.publish fw.mqtt topic statusPayload false publishOk
        some ({ fw with mqtt := r.state }, shown ++ r.calls.map Effect.session)

/-- Sample data: the global objects of device `abc123`, with the update feature
flag and the connection state as given, the session manager holding the topics
of `sampleSession` and the update handler initialised with version 1.0.0. -/
def sample (otaEnabled connected : Bool) : Firmware :=
  { otaEnabled := otaEnabled, deviceId := "abc123",
    mqtt := { SwissAirDryMQTT.sampleSession with connected := connected },
    ota := SwissAirDryOTA.sampleOta }

end Firmware

namespace SwissAirDryOTA

/-- One more than the largest value of the progress callback's integer type:
`int` on the ESP8266, `size_t` on the ESP32, both 32 bits wide. -/
def typeLimit : Target → Int
  | Target.esp8266 => 2147483648
  | Target.esp32 => 4294967296

/-- The arguments of one top-level call of `startUpdate` and what the transfer
collaborator does in it. -/
structure UpdateRequest where
  url : String
  expectedMd5 : String
  newVersion : String
  transfer : Transfer
  deriving DecidableEq, Repr

/-- The object after each of a sequence of top-level `startUpdate` calls, each
made when the one before has returned; `none` when a progress callback stops
the program. -/
def startUpdates (target : Target) (s : SwissAirDryOTA) :
    List UpdateRequest → Option (List SwissAirDryOTA)
  | [] => some []
  | r :: rest =>
    match startUpdate target s r.url r.expectedMd5 r.newVersion r.transfer with
    | none => none
    | some out =>
      match startUpdates target out.state rest with
      | none => none
      | some states => some (out.state :: states)

end SwissAirDryOTA

/-! SwissAirDry firmware: fan control of the ESP8266 (`handleButtonPress` and
`handleControlMessage` in `firmware/esp8266/main.cpp`).  The global
`int currentFanSpeed` is the state; pin writes, display calls and the call of
`publishStatus()` are recorded in order. -/

/-- The two output pins the fan control writes. -/
inductive Pin where
  | FAN_CONTROL_PIN
  | POWER_CONTROL_PIN
  deriving DecidableEq, Repr

/-- What the fan control asks of the hardware, the display and the status
report; `publishStatus` carries the value it reads from `currentFanSpeed`, the
other members of the status document being hardware readings. -/
inductive ControlEffect where
  | analogWrite (pin : Pin) (value : Int)
  | digitalWrite (pin : Pin) (high : Bool)
  | showFanSpeed (speed : Int)
  | showPowerState (state : Bool)
  | publishStatus (fan_speed : Int)
  deriving DecidableEq, Repr

/-- The members of a control message that `handleControlMessage` reads after
`deserializeJson`: `doc["fan_speed"]` as `int` and `doc["power"]` as `boolean`,
each when `doc.containsKey` finds it. -/
structure ControlRequest where
  fan_speed : Option Int
  power : Option Bool
  deriving DecidableEq, Repr

/-- What reaches the fan control: a message on `.../control` (`none` when
`deserializeJson` reports an error) or a click of the button. -/
inductive ControlEvent where
  | controlMessage (message : Option ControlRequest)
  | buttonPress
  deriving DecidableEq, Repr

namespace Firmware

/-- Arduino's `constrain(amt, low, high)`. -/
def constrain (amt low high : Int) : Int :=
  if amt < low then low else if amt > high then high else amt

/-- Arduino's `map(x, in_min, in_max, out_min, out_max)`, with the truncating
division of C. -/
def map (x in_min in_max out_min out_max : Int) : Int :=
  Int.tdiv ((x - in_min) * (out_max - out_min)) (in_max - in_min) + out_min

/-- `void handleButtonPress()`: the new `currentFanSpeed` and the effects; `%`
is the remainder of C on `int`. -/
def handleButtonPress (currentFanSpeed : Int) : Int × List ControlEffect :=
  let currentFanSpeed := Int.tmod (wrapInt (currentFanSpeed + 25)) 125
  let pwmValue := map currentFanSpeed 0 100 0 1023
  (currentFanSpeed,
    [ControlEffect.analogWrite Pin.FAN_CONTROL_PIN pwmValue,
     ControlEffect.showFanSpeed currentFanSpeed,
     ControlEffect.publishStatus currentFanSpeed])

/-- `void handleControlMessage(String message)`: the new `currentFanSpeed` and
the effects. -/
def handleControlMessage (currentFanSpeed : Int) (message : Option ControlRequest) :
    Int × List ControlEffect :=
  match message with
  | none => (currentFanSpeed, [])
  | some doc =>
    let fan : Int × List ControlEffect :=
      match doc.fan_speed with
      | some requested =>
        let speed := constrain requested 0 100
        let pwmValue := map speed 0 100 0 1023
        (speed, [ControlEffect.analogWrite Pin.FAN_CONTROL_PIN pwmValue,
                 ControlEffect.showFanSpeed speed])
      | none => (currentFanSpeed, [])
    let powerEffects : List ControlEffect :=
      match doc.power with
      | some power =>
        [ControlEffect.digitalWrite Pin.POWER_CONTROL_PIN power,
         ControlEffect.showPowerState power]
      | none => []
    (fan.1, fan.2 ++ powerEffects ++ [ControlEffect.publishStatus fan.1])

/-- The fan control reacting to one event. -/
def controlStep (currentFanSpeed : Int) : ControlEvent → Int × List ControlEffect
  | ControlEvent.controlMessage message => handleControlMessage currentFanSpeed message
  | ControlEvent.buttonPress => handleButtonPress currentFanSpeed

/-- `currentFanSpeed` after a sequence of events. -/
def fanSpeedAfter (currentFanSpeed : Int) : List ControlEvent → Int
  | [] => currentFanSpeed
  | e :: es => fanSpeedAfter (controlStep currentFanSpeed e).1 es

end Firmware

/-! # Properties of the session manager -/

namespace SwissAirDryMQTT

/-! ## Single calls -/

/-- The call built by `connectCall` is a connection attempt. -/
theorem connectCall_isConnect (s : SwissAirDryMQTT) : (connectCall s).isConnect = true := by
  unfold connectCall
  split <;> rfl

/-- A `loop()` call that reaches `mqttClient.connect` started disconnected with
more than 5000 ms on the reconnect timer. -/
theorem loop_attempt_iff (s : SwissAirDryMQTT) (millis : Nat) (connectOk : Bool) :
    (∃ c ∈ (loop s millis connectOk).2, c.isConnect = true) ↔
      (s.connected = false ∧
        ulongSub (millis % ULONG_RANGE) s.lastReconnectAttempt > 5000) := by
  unfold loop
  cases hc : s.connected
  · by_cases hg : ulongSub (millis % ULONG_RANGE) s.lastReconnectAttempt > 5000
    · cases connectOk <;> simp [hg, reconnect, connectCall_isConnect]
    · simp [hg]
  · simp [Call.isConnect]

/-- What `loop()` does when it attempts a connection. -/
theorem loop_of_attempt (s : SwissAirDryMQTT) (millis : Nat) (connectOk : Bool)
    (hc : s.connected = false)
    (hg : ulongSub (millis % ULONG_RANGE) s.lastReconnectAttempt > 5000) :
    loop s millis connectOk =
      if connectOk then
        ({ s with connected := true, lastReconnectAttempt := 0 },
          connectCall s :: (s.subscribedTopics.map Call.subscribe
            ++ [Call.publish ("swissairdry/" ++ s.deviceId ++ "/status") ONLINE_PAYLOAD true]))
      else
        ({ s with connected := false, lastReconnectAttempt := millis % ULONG_RANGE },
          [connectCall s]) := by
  unfold loop
  cases connectOk <;> simp [hc, hg, reconnect, connectCall]

/-- What `loop()` does when it attempts no connection while disconnected. -/
theorem loop_of_no_attempt (s : SwissAirDryMQTT) (millis : Nat) (connectOk : Bool)
    (hc : s.connected = false)
    (hg : ¬ ulongSub (millis % ULONG_RANGE) s.lastReconnectAttempt > 5000) :
    loop s millis connectOk = (s, []) := by
  unfold loop
  simp [hc, hg]

/-- C1: whenever `isConnected()` is false, `publish` returns false, makes no call
on the broker client (nothing is sent, nothing is queued) and leaves the whole
object, subscription registry and reconnect timer included, as it was. -/
theorem publish_disconnected_fails (s : SwissAirDryMQTT) (topic payload : String)
    (retain transportOk : Bool) (h : s.isConnected = false) :
    publish s topic payload retain transportOk = { result := false, state := s, calls := [] } := by
  unfold isConnected at h
  simp [publish, h]

/-- C1 at a concrete input: a fresh object is not connected and its `publish` fails silently. -/
theorem publish_disconnected_fails_witness :
    mk0.isConnected = false ∧
      publish mk0 "swissairdry/abc123/telemetry" "42" true true =
        { result := false, state := mk0, calls := [] } :=
  ⟨rfl, publish_disconnected_fails mk0 "swissairdry/abc123/telemetry" "42" true true rfl⟩

/-- C6: a `loop()` call whose connection attempt succeeds calls `connect`, then
sends one subscribe request per registry entry in registry order, then publishes
`{"online":true}` retained to `swissairdry/<deviceId>/status`, and nothing else;
afterwards the session is connected, the reconnect timer is 0 and every other
field, the registry included, is unchanged. -/
theorem loop_success_replays_then_presence (s : SwissAirDryMQTT) (millis : Nat)
    (h : ∃ c ∈ (loop s millis true).2, c.isConnect = true) :
    (loop s millis true).2 =
        connectCall s :: (s.subscribedTopics.map Call.subscribe
          ++ [Call.publish ("swissairdry/" ++ s.deviceId ++ "/status")
                "\x7b\"online\":true\x7d" true]) ∧
      (loop s millis true).1 = { s with connected := true, lastReconnectAttempt := 0 } ∧
      (loop s millis true).1.subscribedTopics = s.subscribedTopics := by
  obtain ⟨hc, hg⟩ := (loop_attempt_iff s millis true).1 h
  rw [loop_of_attempt s millis true hc hg]
  simp [ONLINE_PAYLOAD]

/-- C7: a `loop()` call whose connection attempt fails makes the `connect` call
and no other call (no subscribe, no publish); the session was and stays
disconnected, the reconnect timer holds the clock reading of the attempt and
every other field, the registry included, is unchanged. -/
theorem loop_failure_restarts_timer (s : SwissAirDryMQTT) (millis : Nat)
    (h : ∃ c ∈ (loop s millis false).2, c.isConnect = true) :
    s.isConnected = false ∧
      (loop s millis false).1.isConnected = false ∧
      (loop s millis false).1.lastReconnectAttempt = millis % ULONG_RANGE ∧
      (loop s millis false).2 = [connectCall s] ∧
      (loop s millis false).1.subscribedTopics = s.subscribedTopics ∧
      (loop s millis false).1 =
        { s with connected := false, lastReconnectAttempt := millis % ULONG_RANGE } := by
  obtain ⟨hc, hg⟩ := (loop_attempt_iff s millis false).1 h
  rw [loop_of_attempt s millis false hc hg]
  simp [isConnected, hc]

end SwissAirDryMQTT

namespace SwissAirDryMQTT

/-- C6 at a concrete input: the sample device, tick at 6000 ms, connect succeeds. -/
theorem loop_success_replays_then_presence_witness :
    (∃ c ∈ (loop sampleSession 6000 true).2, c.isConnect = true) ∧
      ((loop sampleSession 6000 true).2 =
        connectCall sampleSession :: (sampleSession.subscribedTopics.map Call.subscribe
          ++ [Call.publish ("swissairdry/" ++ sampleSession.deviceId ++ "/status")
                "\x7b\"online\":true\x7d" true]) ∧
      (loop sampleSession 6000 true).1 =
        { sampleSession with connected := true, lastReconnectAttempt := 0 } ∧
      (loop sampleSession 6000 true).1.subscribedTopics = sampleSession.subscribedTopics) :=
  ⟨by decide, loop_success_replays_then_presence sampleSession 6000 (by decide)⟩

/-- C7 at a concrete input: the sample device, tick at 6000 ms, connect fails. -/
theorem loop_failure_restarts_timer_witness :
    (∃ c ∈ (loop sampleSession 6000 false).2, c.isConnect = true) ∧
      (sampleSession.isConnected = false ∧
      (loop sampleSession 6000 false).1.isConnected = false ∧
      (loop sampleSession 6000 false).1.lastReconnectAttempt = 6000 % ULONG_RANGE ∧
      (loop sampleSession 6000 false).2 = [connectCall sampleSession] ∧
      (loop sampleSession 6000 false).1.subscribedTopics = sampleSession.subscribedTopics ∧
      (loop sampleSession 6000 false).1 =
        { sampleSession with connected := false, lastReconnectAttempt := 6000 % ULONG_RANGE }) :=
  ⟨by decide, loop_failure_restarts_timer sampleSession 6000 (by decide)⟩

/-- C8: after `init` on a fresh object with device id `d`, no `subscribe` call and
one `loop()` call whose connection attempt succeeds, the broker client has been
asked to connect and then to publish `{"online":true}` (retained) to
`swissairdry/<d>/status`, and nothing else: exactly one message is published and
no subscription request precedes it. -/
theorem first_tick_publishes_presence_only (broker : String) (port : Int)
    (username password d : String) (callback millis : Nat)
    (h : ∃ c ∈ (loop (init mk0 broker port username password d callback).1 millis true).2,
          c.isConnect = true) :
    (loop (init mk0 broker port username password d callback).1 millis true).2 =
        [Call.connect ("SwissAirDry-" ++ d)
            (if username.length > 0 then some (username, password) else none)
            ("swissairdry/" ++ d ++ "/status") 0 true "\x7b\"online\":false\x7d",
         Call.publish ("swissairdry/" ++ d ++ "/status") "\x7b\"online\":true\x7d" true] ∧
      (loop (init mk0 broker port username password d callback).1 millis true).2.filter
          Call.isPublish =
        [Call.publish ("swissairdry/" ++ d ++ "/status") "\x7b\"online\":true\x7d" true] ∧
      subscribeRequests
          (loop (init mk0 broker port username password d callback).1 millis true).2 = [] := by
  obtain ⟨hc, hg⟩ := (loop_attempt_iff _ millis true).1 h
  rw [loop_of_attempt _ millis true hc hg]
  by_cases hu : username.length > 0 <;>
    simp [init, mk0, connectCall, hu, ONLINE_PAYLOAD, OFFLINE_PAYLOAD, Call.isPublish,
      subscribeRequests]

/-- C8 at the scenario of the specification: device id `abc123`, tick at 6000 ms. -/
theorem first_tick_publishes_presence_only_witness :
    (∃ c ∈ (loop (init mk0 "broker.local" 1883 "" "" "abc123" 0).1 6000 true).2,
        c.isConnect = true) ∧
      (loop (init mk0 "broker.local" 1883 "" "" "abc123" 0).1 6000 true).2 =
        [Call.connect "SwissAirDry-abc123" none "swissairdry/abc123/status" 0 true
            "\x7b\"online\":false\x7d",
         Call.publish "swissairdry/abc123/status" "\x7b\"online\":true\x7d" true] ∧
      (loop (init mk0 "broker.local" 1883 "" "" "abc123" 0).1 6000 true).2.filter
          Call.isPublish =
        [Call.publish "swissairdry/abc123/status" "\x7b\"online\":true\x7d" true] ∧
      subscribeRequests (loop (init mk0 "broker.local" 1883 "" "" "abc123" 0).1 6000 true).2
        = [] :=
  ⟨by decide, first_tick_publishes_presence_only "broker.local" 1883 "" "" "abc123" 0 6000
    (by decide)⟩

/-- C10: when connected, `subscribe(t)` makes exactly one call on the broker
client, the subscription request for `t`, and returns what that call returned;
when not connected it makes no call, returns false and leaves `t` in the
registry, so that a `loop()` call made next whose connection attempt succeeds
sends a subscription request for `t`. -/
theorem subscribe_live_or_deferred (s : SwissAirDryMQTT) (t : String) (transportOk : Bool) :
    (s.isConnected = true →
        (subscribe s t transportOk).calls = [Call.subscribe t] ∧
        (subscribe s t transportOk).result = transportOk) ∧
      (s.isConnected = false →
        (subscribe s t transportOk).calls = [] ∧
        (subscribe s t transportOk).result = false ∧
        t ∈ (subscribe s t transportOk).state.subscribedTopics ∧
        ∀ millis : Nat,
          (∃ c ∈ (loop (subscribe s t transportOk).state millis true).2, c.isConnect = true) →
          Call.subscribe t ∈ (loop (subscribe s t transportOk).state millis true).2) := by
  unfold isConnected
  refine ⟨fun hc => ?_, fun hc => ?_⟩
  · simp [subscribe, hc]
  · refine ⟨by simp [subscribe, hc], by simp [subscribe, hc], by simp [subscribe, hc], ?_⟩
    intro millis h
    obtain ⟨hc2, hg⟩ := (loop_attempt_iff _ millis true).1 h
    rw [loop_of_attempt _ millis true hc2 hg]
    simp [subscribe, hc]

/-- C10 at concrete inputs: the sample device subscribing while disconnected and
while connected. -/
theorem subscribe_live_or_deferred_witness :
    ((subscribe sampleSession "swissairdry/abc123/command" true).calls = [] ∧
      (subscribe sampleSession "swissairdry/abc123/command" true).result = false ∧
      "swissairdry/abc123/command" ∈
        (subscribe sampleSession "swissairdry/abc123/command" true).state.subscribedTopics) ∧
    ((subscribe (loop sampleSession 6000 true).1 "swissairdry/abc123/command" true).calls =
        [Call.subscribe "swissairdry/abc123/command"] ∧
      (subscribe (loop sampleSession 6000 true).1 "swissairdry/abc123/command" true).result
        = true) :=
  ⟨⟨((subscribe_live_or_deferred sampleSession "swissairdry/abc123/command" true).2
        (by decide)).1,
    ((subscribe_live_or_deferred sampleSession "swissairdry/abc123/command" true).2
        (by decide)).2.1,
    ((subscribe_live_or_deferred sampleSession "swissairdry/abc123/command" true).2
        (by decide)).2.2.1⟩,
   (subscribe_live_or_deferred (loop sampleSession 6000 true).1
      "swissairdry/abc123/command" true).1 (by decide)⟩

end SwissAirDryMQTT

namespace SwissAirDryMQTT

/-! ## Sequences of calls -/

/-- No event changes the identity, the credentials or the last will, and every
connection attempt of an event is the `connectCall` of the object it started from. -/
theorem step_keeps_will (s : SwissAirDryMQTT) (e : Event) :
    connectCall (step s e).1 = connectCall s ∧
      (step s e).1.willTopic = s.willTopic ∧
      (step s e).1.willMessage = s.willMessage ∧
      ∀ c ∈ (step s e).2, c.isConnect = true → c = connectCall s := by
  cases e with
  | tick millis connectOk =>
    simp only [step]
    cases hc : s.connected
    · by_cases hg : ulongSub (millis % ULONG_RANGE) s.lastReconnectAttempt > 5000
      · rw [loop_of_attempt s millis connectOk hc hg]
        cases connectOk
        · simp [connectCall]
        · simp only [if_true, connectCall, true_and]
          intro c hmem hcon
          simp only [List.mem_cons, List.mem_append, List.mem_map, List.mem_singleton] at hmem
          rcases hmem with h | ⟨t, _, h⟩ | h | h
          · exact h
          · rw [← h] at hcon; simp [Call.isConnect] at hcon
          · rw [h] at hcon; simp [Call.isConnect] at hcon
          · simp at h
      · rw [loop_of_no_attempt s millis connectOk hc hg]
        simp
    · simp [loop, hc, Call.isConnect]
  | publish topic payload retain ok =>
    cases hc : s.connected <;> simp [step, publish, hc, Call.isConnect]
  | subscribe topic ok =>
    cases hc : s.connected
    · simp [step, subscribe, hc, connectCall]
    · by_cases hm : topic ∈ s.subscribedTopics <;>
        simp [step, subscribe, hc, hm, connectCall, Call.isConnect]
  | unsubscribe topic ok =>
    cases hc : s.connected <;> simp [step, unsubscribe, hc, connectCall, Call.isConnect]
  | sessionLoss => simp [step, connectCall]

/-- The same over a whole run. -/
theorem run_keeps_will (es : List Event) (s : SwissAirDryMQTT) :
    connectCall (run s es).1 = connectCall s ∧
      (run s es).1.willTopic = s.willTopic ∧
      (run s es).1.willMessage = s.willMessage ∧
      ∀ c ∈ (run s es).2, c.isConnect = true → c = connectCall s := by
  induction es generalizing s with
  | nil => simp [run]
  | cons e es ih =>
    obtain ⟨h1, h2, h3, h4⟩ := step_keeps_will s e
    obtain ⟨i1, i2, i3, i4⟩ := ih (step s e).1
    refine ⟨by simp [run, i1, h1], by simp [run, i2, h2], by simp [run, i3, h3], ?_⟩
    intro c hmem hcon
    simp only [run, List.mem_append] at hmem
    rcases hmem with h | h
    · exact h4 c h hcon
    · rw [i4 c h hcon, h1]

/-- C9: `init` with device id `d` sets the last will to topic
`swissairdry/<d>/status` and payload `{"online":false}`; after any sequence of
`loop`, `publish`, `subscribe`, `unsubscribe` calls and session losses the two
fields are still those, and every connection attempt made along the way passed
client id `SwissAirDry-<d>`, that will topic, QoS 0, retain = true and that
will payload (with the credentials given to `init` when the user name is not
empty). -/
theorem last_will_set_by_init_only (s0 : SwissAirDryMQTT) (broker : String) (port : Int)
    (username password d : String) (callback : Nat) (es : List Event) :
    (init s0 broker port username password d callback).1.willTopic
        = "swissairdry/" ++ d ++ "/status" ∧
      (init s0 broker port username password d callback).1.willMessage
        = "\x7b\"online\":false\x7d" ∧
      (run (init s0 broker port username password d callback).1 es).1.willTopic
        = "swissairdry/" ++ d ++ "/status" ∧
      (run (init s0 broker port username password d callback).1 es).1.willMessage
        = "\x7b\"online\":false\x7d" ∧
      ∀ c ∈ (run (init s0 broker port username password d callback).1 es).2,
        c.isConnect = true →
        c = Call.connect ("SwissAirDry-" ++ d)
              (if username.length > 0 then some (username, password) else none)
              ("swissairdry/" ++ d ++ "/status") 0 true "\x7b\"online\":false\x7d" := by
  obtain ⟨_, h2, h3, h4⟩ :=
    run_keeps_will es (init s0 broker port username password d callback).1
  refine ⟨by simp [init], by simp [init, OFFLINE_PAYLOAD], ?_, ?_, ?_⟩
  · rw [h2]; simp [init]
  · rw [h3]; simp [init, OFFLINE_PAYLOAD]
  · intro c hmem hcon
    rw [h4 c hmem hcon]
    by_cases hu : username.length > 0 <;> simp [init, connectCall, hu, OFFLINE_PAYLOAD]

end SwissAirDryMQTT

namespace SwissAirDryMQTT

/-! ## The reconnect timer -/

/-- The difference the firmware computes between two readings of the 32-bit
clock is the elapsed time modulo `2^32`. -/
theorem ulongSub_readings (t0 t : Nat) (h : t0 ≤ t) :
    ulongSub (t % ULONG_RANGE) (t0 % ULONG_RANGE) = (t - t0) % ULONG_RANGE := by
  unfold ulongSub ULONG_RANGE
  omega

/-- While the timer was started at `t0` and the session is down, an event before
`t0 + 5000` makes no connection attempt and leaves timer and session as they are. -/
theorem step_within_backoff (s : SwissAirDryMQTT) (t0 : Nat) (e : Event)
    (hc : s.connected = false) (hl : s.lastReconnectAttempt = t0 % ULONG_RANGE)
    (ht : ∀ t ∈ tickTimes [e], t0 ≤ t ∧ t - t0 < 5000) :
    (step s e).1.connected = false ∧
      (step s e).1.lastReconnectAttempt = t0 % ULONG_RANGE ∧
      ∀ c ∈ (step s e).2, c.isConnect = false := by
  cases e with
  | tick millis connectOk =>
    obtain ⟨h1, h2⟩ := ht millis (by simp [tickTimes])
    have hg : ¬ ulongSub (millis % ULONG_RANGE) s.lastReconnectAttempt > 5000 := by
      rw [hl, ulongSub_readings t0 millis h1]
      unfold ULONG_RANGE
      omega
    simp only [step]
    rw [loop_of_no_attempt s millis connectOk hc hg]
    simp [hc, hl]
  | publish topic payload retain ok => simp [step, publish, hc, hl]
  | subscribe topic ok => simp [step, subscribe, hc, hl]
  | unsubscribe topic ok => simp [step, unsubscribe, hc, hl]
  | sessionLoss => simp [step, hl]

/-- The same over a whole run. -/
theorem run_within_backoff (es : List Event) (s : SwissAirDryMQTT) (t0 : Nat)
    (hc : s.connected = false) (hl : s.lastReconnectAttempt = t0 % ULONG_RANGE)
    (ht : ∀ t ∈ tickTimes es, t0 ≤ t ∧ t - t0 < 5000) :
    ∀ c ∈ (run s es).2, c.isConnect = false := by
  induction es generalizing s with
  | nil => simp [run]
  | cons e es ih =>
    have hte : ∀ t ∈ tickTimes [e], t0 ≤ t ∧ t - t0 < 5000 := by
      intro t hmem
      apply ht
      cases e <;> simp_all [tickTimes]
    have htes : ∀ t ∈ tickTimes es, t0 ≤ t ∧ t - t0 < 5000 := by
      intro t hmem
      apply ht
      cases e <;> simp_all [tickTimes]
    obtain ⟨h1, h2, h3⟩ := step_within_backoff s t0 e hc hl hte
    intro c hmem
    simp only [run, List.mem_append] at hmem
    rcases hmem with h | h
    · exact h3 c h
    · exact ih (step s e).1 h1 h2 htes c h

/-- C4: after a `loop()` call at time `t0` whose connection attempt failed, no
sequence of `loop`, `publish`, `subscribe`, `unsubscribe` calls and session
losses in which every `loop()` call happens at a time `t` with `t0 ≤ t` and
`t - t0 < 5000` makes a connection attempt, however many `loop()` calls there
are and whatever `connect` would have returned. -/
theorem no_attempt_within_backoff_after_failure (s : SwissAirDryMQTT) (t0 : Nat)
    (es : List Event)
    (hfail : ∃ c ∈ (loop s t0 false).2, c.isConnect = true)
    (hes : ∀ t ∈ tickTimes es, t0 ≤ t ∧ t - t0 < 5000) :
    ∀ c ∈ (run (loop s t0 false).1 es).2, c.isConnect = false := by
  obtain ⟨hc, hg⟩ := (loop_attempt_iff s t0 false).1 hfail
  apply run_within_backoff es _ t0 _ _ hes
  · rw [loop_of_attempt s t0 false hc hg]; rfl
  · rw [loop_of_attempt s t0 false hc hg]; rfl

/-- C4 at a concrete input: the sample device fails to connect at 6000 ms and is
then polled at 6000, 6001 and 10999 ms with a `subscribe` call in between. -/
theorem no_attempt_within_backoff_after_failure_witness :
    (∃ c ∈ (loop sampleSession 6000 false).2, c.isConnect = true) ∧
      (∀ t ∈ tickTimes [Event.tick 6000 true, Event.tick 6001 true,
          Event.subscribe "swissairdry/abc123/command" true, Event.tick 10999 true],
        6000 ≤ t ∧ t - 6000 < 5000) ∧
      ∀ c ∈ (run (loop sampleSession 6000 false).1
          [Event.tick 6000 true, Event.tick 6001 true,
            Event.subscribe "swissairdry/abc123/command" true, Event.tick 10999 true]).2,
        c.isConnect = false :=
  ⟨by decide, by decide,
    no_attempt_within_backoff_after_failure sampleSession 6000
      [Event.tick 6000 true, Event.tick 6001 true,
        Event.subscribe "swissairdry/abc123/command" true, Event.tick 10999 true]
      (by decide) (by decide)⟩

end SwissAirDryMQTT

namespace SwissAirDryMQTT

/-- Every logged attempt happened at the time of one of the `loop()` calls. -/
theorem attemptLog_times (es : List Event) (s : SwissAirDryMQTT) :
    ∀ b ∈ attemptLog s es, b.1 ∈ tickTimes es := by
  induction es generalizing s with
  | nil => simp [attemptLog]
  | cons e es ih =>
    intro b hb
    cases e with
    | tick millis connectOk =>
      simp only [attemptLog, List.mem_append] at hb
      simp only [tickTimes, List.mem_cons]
      rcases hb with h | h
      · left
        split at h
        · simp at h; rw [h]
        · simp at h
      · right; exact ih _ b h
    | publish topic payload retain ok => exact ih _ b (by simpa [attemptLog] using hb)
    | subscribe topic ok => exact ih _ b (by simpa [attemptLog] using hb)
    | unsubscribe topic ok => exact ih _ b (by simpa [attemptLog] using hb)
    | sessionLoss => exact ih _ b (by simpa [attemptLog] using hb)

/-- While the timer was started at `t0` and the session is down, every attempt of
a run whose clock does not go backwards comes more than 5000 ms after `t0`. -/
theorem attempts_after_timer_start (es : List Event) (s : SwissAirDryMQTT) (t0 : Nat)
    (hc : s.connected = false) (hl : s.lastReconnectAttempt = t0 % ULONG_RANGE)
    (hge : ∀ t ∈ tickTimes es, t0 ≤ t)
    (hsorted : (tickTimes es).Pairwise (fun a b => a ≤ b)) :
    ∀ b ∈ attemptLog s es, t0 + 5000 < b.1 := by
  induction es generalizing s with
  | nil => simp [attemptLog]
  | cons e es ih =>
    intro b hb
    cases e with
    | tick millis connectOk =>
      simp only [tickTimes, List.pairwise_cons] at hsorted
      have h0 : t0 ≤ millis := hge millis (by simp [tickTimes])
      have hge2 : ∀ t ∈ tickTimes es, t0 ≤ t := fun t ht => hge t (by simp [tickTimes, ht])
      by_cases hg : ulongSub (millis % ULONG_RANGE) s.lastReconnectAttempt > 5000
      · have hlate : t0 + 5000 < millis := by
          rw [hl, ulongSub_readings t0 millis h0] at hg
          have := Nat.mod_le (millis - t0) ULONG_RANGE
          omega
        simp only [attemptLog, List.mem_append] at hb
        rcases hb with h | h
        · split at h
          · simp at h; rw [h]; exact hlate
          · simp at h
        · have := hsorted.1 b.1 (attemptLog_times es _ b h)
          omega
      · rw [attemptLog, loop_of_no_attempt s millis connectOk hc hg] at hb
        simp only [List.any_nil, List.nil_append] at hb
        exact ih s hc hl hge2 hsorted.2 b (by simpa using hb)
    | publish topic payload retain ok =>
      obtain ⟨h1, h2, _⟩ := step_within_backoff s t0 (Event.publish topic payload retain ok) hc hl
        (by simp [tickTimes])
      exact ih (step s (Event.publish topic payload retain ok)).1 h1 h2
        (fun t ht => hge t (by simpa [tickTimes] using ht))
        (by simpa [tickTimes] using hsorted) b (by simpa [attemptLog] using hb)
    | subscribe topic ok =>
      obtain ⟨h1, h2, _⟩ := step_within_backoff s t0 (Event.subscribe topic ok) hc hl
        (by simp [tickTimes])
      exact ih (step s (Event.subscribe topic ok)).1 h1 h2
        (fun t ht => hge t (by simpa [tickTimes] using ht))
        (by simpa [tickTimes] using hsorted) b (by simpa [attemptLog] using hb)
    | unsubscribe topic ok =>
      obtain ⟨h1, h2, _⟩ := step_within_backoff s t0 (Event.unsubscribe topic ok) hc hl
        (by simp [tickTimes])
      exact ih (step s (Event.unsubscribe topic ok)).1 h1 h2
        (fun t ht => hge t (by simpa [tickTimes] using ht))
        (by simpa [tickTimes] using hsorted) b (by simpa [attemptLog] using hb)
    | sessionLoss =>
      obtain ⟨h1, h2, _⟩ := step_within_backoff s t0 Event.sessionLoss hc hl
        (by simp [tickTimes])
      exact ih (step s Event.sessionLoss).1 h1 h2
        (fun t ht => hge t (by simpa [tickTimes] using ht))
        (by simpa [tickTimes] using hsorted) b (by simpa [attemptLog] using hb)

/-- C5, as the code has it: in every run from any state whose `loop()` calls come
at non-decreasing times, an attempt that failed is followed by the next attempt,
and so by every later one, more than 5000 ms later.  (After an attempt that
succeeded the timer is set back to 0 and no such distance is kept.) -/
theorem attempts_spaced_after_failure (s : SwissAirDryMQTT) (es : List Event)
    (hsorted : (tickTimes es).Pairwise (fun a b => a ≤ b)) :
    (attemptLog s es).Pairwise (fun a b => a.2 = false → a.1 + 5000 < b.1) := by
  induction es generalizing s with
  | nil => simp [attemptLog]
  | cons e es ih =>
    cases e with
    | tick millis connectOk =>
      simp only [tickTimes, List.pairwise_cons] at hsorted
      have htail := ih (loop s millis connectOk).1 hsorted.2
      simp only [attemptLog]
      split
      · rename_i hatt
        simp only [List.singleton_append, List.pairwise_cons]
        refine ⟨?_, htail⟩
        intro b hb hfalse
        have hf : connectOk = false := hfalse
        subst hf
        have hex : ∃ c ∈ (loop s millis false).2, c.isConnect = true := by
          simpa [List.any_eq_true] using hatt
        obtain ⟨hc, hg⟩ := (loop_attempt_iff s millis false).1 hex
        rw [loop_of_attempt s millis false hc hg] at hb
        exact attempts_after_timer_start es _ millis rfl rfl hsorted.1 hsorted.2 b hb
      · simpa using htail
    | publish topic payload retain ok =>
      simpa [attemptLog] using ih _ (by simpa [tickTimes] using hsorted)
    | subscribe topic ok =>
      simpa [attemptLog] using ih _ (by simpa [tickTimes] using hsorted)
    | unsubscribe topic ok =>
      simpa [attemptLog] using ih _ (by simpa [tickTimes] using hsorted)
    | sessionLoss =>
      simpa [attemptLog] using ih _ (by simpa [tickTimes] using hsorted)

end SwissAirDryMQTT

namespace SwissAirDryMQTT

/-- C5 at a concrete input: the sample device is polled at 6000 ms (attempt
fails), 8000 ms (no attempt), 11001 ms (attempt succeeds) and, the session being
lost, at 11002 ms (attempt). -/
theorem attempts_spaced_after_failure_witness :
    (tickTimes [Event.tick 6000 false, Event.tick 8000 true, Event.tick 11001 true,
        Event.sessionLoss, Event.tick 11002 true]).Pairwise (fun a b => a ≤ b) ∧
      (attemptLog sampleSession [Event.tick 6000 false, Event.tick 8000 true,
        Event.tick 11001 true, Event.sessionLoss, Event.tick 11002 true]).Pairwise
          (fun a b => a.2 = false → a.1 + 5000 < b.1) :=
  ⟨by decide,
    attempts_spaced_after_failure sampleSession
      [Event.tick 6000 false, Event.tick 8000 true, Event.tick 11001 true,
        Event.sessionLoss, Event.tick 11002 true] (by decide)⟩

/-- C5 as stated fails: a device that connects at 6000 ms and loses the session
attempts again on the `loop()` call at 6001 ms, one millisecond after the
earlier (successful) attempt. -/
theorem attempts_close_after_success :
    (tickTimes [Event.tick 6000 true, Event.sessionLoss, Event.tick 6001 true]).Pairwise
        (fun a b => a ≤ b) ∧
      attemptLog (init mk0 "broker.local" 1883 "" "" "abc123" 0).1
          [Event.tick 6000 true, Event.sessionLoss, Event.tick 6001 true]
        = [(6000, true), (6001, true)] ∧
      ¬ (attemptLog (init mk0 "broker.local" 1883 "" "" "abc123" 0).1
          [Event.tick 6000 true, Event.sessionLoss, Event.tick 6001 true]).Pairwise
            (fun a b => a.1 + 5000 ≤ b.1) := by
  decide

/-! ## The subscription registry -/

/-- C2 on the code: two `subscribe` calls for one topic while disconnected leave
the topic twice in the registry. -/
theorem subscribe_twice_offline_duplicates :
    (run (init mk0 "broker.local" 1883 "" "" "abc123" 0).1
        [Event.subscribe "swissairdry/abc123/config" false,
         Event.subscribe "swissairdry/abc123/config" false]).1.subscribedTopics
      = ["swissairdry/abc123/config", "swissairdry/abc123/config"] ∧
    ¬ (run (init mk0 "broker.local" 1883 "" "" "abc123" 0).1
        [Event.subscribe "swissairdry/abc123/config" false,
         Event.subscribe "swissairdry/abc123/config" false]).1.subscribedTopics.Nodup := by
  decide

/-- C3 on the code: after `subscribe(a); subscribe(a)` before the first connect
the first successful connection replays `a` twice where the specification's
registry holds it once, and after `subscribe(a); subscribe(a); unsubscribe(a)`
it still replays `a` where the specification's registry is empty. -/
theorem first_connect_replays_duplicates :
    subscribeRequests
        (run (init mk0 "broker.local" 1883 "" "" "abc123" 0).1
          ([RegistryOp.sub "a", RegistryOp.sub "a"].map RegistryOp.toEvent
            ++ [Event.tick 6000 true])).2 = ["a", "a"] ∧
      specRegistry [] [RegistryOp.sub "a", RegistryOp.sub "a"] = ["a"] ∧
      subscribeRequests
        (run (init mk0 "broker.local" 1883 "" "" "abc123" 0).1
          ([RegistryOp.sub "a", RegistryOp.sub "a", RegistryOp.unsub "a"].map RegistryOp.toEvent
            ++ [Event.tick 6000 true])).2 = ["a"] ∧
      specRegistry [] [RegistryOp.sub "a", RegistryOp.sub "a", RegistryOp.unsub "a"] = [] := by
  decide

end SwissAirDryMQTT

namespace SwissAirDryMQTT

/-- On a registry without duplicates `unsubscribe(t)` removes `t`, keeps the
other entries in order, leaves a registry without `t` untouched and makes the
unsubscribe request exactly when connected. -/
theorem unsubscribe_on_distinct_registry (s : SwissAirDryMQTT) (t : String) (transportOk : Bool)
    (hnodup : s.subscribedTopics.Nodup) :
    t ∉ (unsubscribe s t transportOk).state.subscribedTopics ∧
      (unsubscribe s t transportOk).state.subscribedTopics
        = s.subscribedTopics.filter (fun x => x != t) ∧
      (t ∉ s.subscribedTopics → (unsubscribe s t transportOk).state = s) ∧
      (unsubscribe s t transportOk).calls
        = if s.isConnected then [Call.unsubscribe t] else [] := by
  have hstate : (unsubscribe s t transportOk).state.subscribedTopics
      = s.subscribedTopics.erase t := by
    cases hc : s.connected <;> simp [unsubscribe, hc]
  refine ⟨?_, ?_, ?_, ?_⟩
  · rw [hstate]
    exact fun h => (List.Nodup.mem_erase_iff hnodup).1 h |>.1 rfl
  · rw [hstate, List.Nodup.erase_eq_filter hnodup]
  · intro hmem
    obtain ⟨connected, _, _, _, _, _, _, _, _, _, topics⟩ := s
    have he : topics.erase t = topics := List.erase_of_not_mem hmem
    cases connected <;> simp [unsubscribe, he]
  · cases hc : s.connected <;> simp [unsubscribe, isConnected, hc]

/-- C11 on the code: after `subscribe(t); subscribe(t)` while disconnected, a
state the firmware can reach, `unsubscribe(t)` erases one of the two entries and
the registry still contains `t`. -/
theorem unsubscribe_leaves_duplicate_topic :
    (unsubscribe
        (run (init mk0 "broker.local" 1883 "" "" "abc123" 0).1
          [Event.subscribe "swissairdry/abc123/config" false,
           Event.subscribe "swissairdry/abc123/config" false]).1
        "swissairdry/abc123/config" false).state.subscribedTopics
      = ["swissairdry/abc123/config"] ∧
    "swissairdry/abc123/config" ∈
      (unsubscribe
        (run (init mk0 "broker.local" 1883 "" "" "abc123" 0).1
          [Event.subscribe "swissairdry/abc123/config" false,
           Event.subscribe "swissairdry/abc123/config" false]).1
        "swissairdry/abc123/config" false).state.subscribedTopics := by
  decide

end SwissAirDryMQTT

/-! # Properties of the update handler -/

namespace SwissAirDryOTA

/-- C12: `startUpdate(url, checksum, v)` with `v` the current firmware version
returns false, whatever the url, the checksum and the transfer would be; it has
no effect at all (the transfer collaborator is not called, nothing is
published) and leaves the object, the in-progress flag included, as it was. -/
theorem startUpdate_same_version_rejected (target : Target) (s : SwissAirDryOTA)
    (url expectedMd5 : String) (transfer : Transfer) :
    startUpdate target s url expectedMd5 s.currentVersion transfer
      = some { result := false, state := s, effects := [] } := by
  unfold startUpdate
  split <;> simp

/-- C13: `startUpdate` called while an update is in progress returns false, has
no effect (no transfer, nothing published) and leaves the in-progress flag, the
result and the error message of the running job as they are. -/
theorem startUpdate_in_progress_rejected (target : Target) (s : SwissAirDryOTA)
    (url expectedMd5 newVersion : String) (transfer : Transfer)
    (h : s.isUpdateInProgress = true) :
    startUpdate target s url expectedMd5 newVersion transfer
      = some { result := false, state := s, effects := [] } := by
  unfold isUpdateInProgress at h
  simp [startUpdate, h]

/-- C13 at a concrete input: the sample update handler in the middle of a job. -/
theorem startUpdate_in_progress_rejected_witness :
    ({ sampleOta with updateInProgress := true } : SwissAirDryOTA).isUpdateInProgress = true ∧
      startUpdate Target.esp8266 { sampleOta with updateInProgress := true }
          "http://x/fw.bin" "deadbeef" "2.0.0"
          (sampleTransfer HTTPUpdateResult.HTTP_UPDATE_OK "")
        = some { result := false, state := { sampleOta with updateInProgress := true },
                 effects := [] } :=
  ⟨rfl, startUpdate_in_progress_rejected Target.esp8266 { sampleOta with updateInProgress := true }
    "http://x/fw.bin" "deadbeef" "2.0.0" (sampleTransfer HTTPUpdateResult.HTTP_UPDATE_OK "") rfl⟩

end SwissAirDryOTA

namespace Firmware

/-- C14 as stated fails: `startUpdate` knows no feature flag.  On a device whose
`config.otaEnabled` is false it runs the transfer and reports completion instead
of publishing the `OTA updates are disabled` error. -/
theorem startUpdate_ignores_feature_flag :
    (sample false true).otaEnabled = false ∧
      (SwissAirDryOTA.startUpdate Target.esp8266 (sample false true).ota
          "http://x/fw.bin" "deadbeef" "2.0.0"
          (SwissAirDryOTA.sampleTransfer HTTPUpdateResult.HTTP_UPDATE_OK "")).map
            (fun out => (out.result, out.effects))
        = some (true,
            [Effect.onProgress, Effect.update "http://x/fw.bin",
             Effect.client (Call.publish "swissairdry/abc123/ota/progress"
               "\x7b\"progress\":0\x7d" false),
             Effect.client (Call.publish "swissairdry/abc123/ota/progress"
               "\x7b\"progress\":50\x7d" false),
             Effect.client (Call.publish "swissairdry/abc123/ota/progress"
               "\x7b\"progress\":100\x7d" false),
             Effect.client (Call.publish "swissairdry/abc123/ota/status"
               "\x7b\"status\":\"completed\",\"message\":\"Update successful\",\"version\":\"2.0.0\"\x7d"
               false),
             Effect.delay 1000]) := by
  decide

/-- C14, as the code has it: with the update feature flag off it is the
dispatcher `handleOtaUpdateMessage` that rejects an update message.  It hands
`{"status":"error","message":"OTA updates are disabled"}` for
`swissairdry/<deviceId>/ota/status` to the session manager, whose `publish`
sends it when the session is connected and drops it otherwise; `startUpdate` is
not called, so the transfer collaborator is not invoked and nothing changes. -/
theorem dispatcher_rejects_when_disabled (fw : Firmware) (doc : OtaRequest) (publishOk : Bool)
    (transfer : Transfer) (h : fw.otaEnabled = false) :
    handleOtaUpdateMessage fw (some doc) publishOk transfer
      = some (fw,
          if fw.mqtt.isConnected then
            [Effect.session (Call.publish ("swissairdry/" ++ fw.deviceId ++ "/ota/status")
              "\x7b\"status\":\"error\",\"message\":\"OTA updates are disabled\"\x7d" false)]
          else []) ∧
      ∀ out, handleOtaUpdateMessage fw (some doc) publishOk transfer = some out →
        ∀ e ∈ out.2, e.isUpdate = false := by
  have hpayload : serializeJson [("status", JsonValue.str "error"),
      ("message", JsonValue.str "OTA updates are disabled")]
      = "\x7b\"status\":\"error\",\"message\":\"OTA updates are disabled\"\x7d" := by decide
  have hmain : handleOtaUpdateMessage fw (some doc) publishOk transfer
      = some (fw,
          if fw.mqtt.isConnected then
            [Effect.session (Call.publish ("swissairdry/" ++ fw.deviceId ++ "/ota/status")
              "\x7b\"status\":\"error\",\"message\":\"OTA updates are disabled\"\x7d" false)]
          else []) := by
    obtain ⟨enabled, deviceId, mqtt, ota⟩ := fw
    simp only at h
    subst h
    cases hc : mqtt.connected <;>
      simp [handleOtaUpdateMessage, hpayload, SwissAirDryMQTT.publish,
        SwissAirDryMQTT.isConnected, hc]
  refine ⟨hmain, ?_⟩
  intro out hout e he
  rw [hmain] at hout
  cases hout
  cases hc : fw.mqtt.connected <;>
    simp [SwissAirDryMQTT.isConnected, hc] at he
  rw [he]; rfl

/-- C14 at a concrete input: the sample device, connected, flag off. -/
theorem dispatcher_rejects_when_disabled_witness :
    (sample false true).otaEnabled = false ∧
      handleOtaUpdateMessage (sample false true)
          (some { version := "2.0.0", url := "http://x/fw.bin", md5_hash := "deadbeef" }) true
          (SwissAirDryOTA.sampleTransfer HTTPUpdateResult.HTTP_UPDATE_OK "")
        = some (sample false true,
            [Effect.session (Call.publish "swissairdry/abc123/ota/status"
              "\x7b\"status\":\"error\",\"message\":\"OTA updates are disabled\"\x7d" false)]) :=
  ⟨rfl, (dispatcher_rejects_when_disabled (sample false true)
    { version := "2.0.0", url := "http://x/fw.bin", md5_hash := "deadbeef" } true
    (SwissAirDryOTA.sampleTransfer HTTPUpdateResult.HTTP_UPDATE_OK "") rfl).1⟩

end Firmware

namespace SwissAirDryOTA

/-! ## The progress callback -/

/-- Within the range of `int` the conversion changes nothing. -/
theorem wrapInt_of_range (x : Int) (h1 : -2147483648 ≤ x) (h2 : x < 2147483648) :
    wrapInt x = x := by
  unfold wrapInt
  omega

/-- Within the range of `size_t` the conversion changes nothing. -/
theorem wrapSizeT_of_range (x : Int) (h1 : 0 ≤ x) (h2 : x < 4294967296) :
    wrapSizeT x = x := by
  unfold wrapSizeT
  omega

/-- For a non-negative `progress` whose hundredfold fits in `int` and a positive
`total`, both builds compute the rounded-down quotient. -/
theorem percent_of_fitting (target : Target) (progress total : Int) (h0 : 0 ≤ progress)
    (hpos : 0 < total) (hfit : progress * 100 < 2147483648) :
    percent target progress total = some (progress * 100 / total) := by
  have hprod : 0 ≤ progress * 100 := by omega
  have hq0 : 0 ≤ progress * 100 / total := Int.ediv_nonneg hprod (le_of_lt hpos)
  have hq1 : progress * 100 / total ≤ progress * 100 := Int.ediv_le_self total hprod
  have hne : total ≠ 0 := ne_of_gt hpos
  unfold percent
  cases target
  · simp only [hne, if_false]
    rw [wrapInt_of_range (progress * 100) (by omega) hfit,
      Int.tdiv_eq_ediv hprod (le_of_lt hpos), wrapInt_of_range _ (by omega) (by omega)]
  · simp only [hne, if_false]
    rw [wrapSizeT_of_range (progress * 100) hprod (by omega),
      wrapInt_of_range _ (by omega) (by omega)]

/-- With a `total` other than zero the division has a value. -/
theorem percent_isSome (target : Target) (progress total : Int) (h : total ≠ 0) :
    ∃ p, percent target progress total = some p := by
  unfold percent
  cases target <;> simp [h]

/-- The callbacks of a transfer, given the percent each of them computes. -/
theorem runCallbacks_of_percents (target : Target) (s : SwissAirDryOTA)
    (cbs : List (Int × Int)) (ps : List Int)
    (h : List.Forall₂ (fun c p => percent target c.1 c.2 = some p) cbs ps) :
    runCallbacks target s cbs = some (s, ps.map (progressPublish s)) := by
  induction h with
  | nil => rfl
  | @cons c p cbs ps hhead _ ih =>
    obtain ⟨progress, total⟩ := c
    simp only at hhead
    simp [runCallbacks, updateCallback, hhead, ih]

/-- Callbacks whose `total` is never zero all compute a percent. -/
theorem percents_exist (target : Target) (cbs : List (Int × Int))
    (h : ∀ c ∈ cbs, c.2 ≠ 0) :
    ∃ ps, List.Forall₂ (fun c p => percent target c.1 c.2 = some p) cbs ps := by
  induction cbs with
  | nil => exact ⟨[], List.Forall₂.nil⟩
  | cons c cbs ih =>
    obtain ⟨p, hp⟩ := percent_isSome target c.1 c.2 (h c (by simp))
    obtain ⟨ps, hps⟩ := ih (fun c hc => h c (by simp [hc]))
    exact ⟨p :: ps, List.Forall₂.cons hp hps⟩

/-- What an accepted `startUpdate` does once the percents of the callbacks are
known: flag set, result and message cleared, callback registered, transfer
called, one progress message per callback, flag cleared, then the branch of
the `switch`. -/
theorem startUpdate_of_percents (target : Target) (s : SwissAirDryOTA)
    (url expectedMd5 newVersion : String) (transfer : Transfer) (ps : List Int)
    (hidle : s.updateInProgress = false) (hver : newVersion ≠ s.currentVersion)
    (hps : List.Forall₂ (fun c p => percent target c.1 c.2 = some p) transfer.progress ps) :
    startUpdate target s url expectedMd5 newVersion transfer =
      match transfer.ret with
      | HTTPUpdateResult.HTTP_UPDATE_FAILED =>
        some { result := false,
               state := { s with updateInProgress := false, updateResult := "failed",
                                 updateErrorMessage := transfer.lastErrorString },
               effects := Effect.onProgress :: Effect.update url ::
                 (ps.map (progressPublish s) ++
                   [statusPublish s "failed" transfer.lastErrorString newVersion]),
               seen := transferStates target
                 { s with updateInProgress := true, updateResult := "",
                          updateErrorMessage := "" } transfer.progress }
      | HTTPUpdateResult.HTTP_UPDATE_NO_UPDATES =>
        some { result := false,
               state := { s with updateInProgress := false, updateResult := "no_updates",
                                 updateErrorMessage := "" },
               effects := Effect.onProgress :: Effect.update url ::
                 (ps.map (progressPublish s) ++
                   [statusPublish s "no_updates" "No updates available" s.currentVersion]),
               seen := transferStates target
                 { s with updateInProgress := true, updateResult := "",
                          updateErrorMessage := "" } transfer.progress }
      | HTTPUpdateResult.HTTP_UPDATE_OK =>
        some { result := true,
               state := { s with updateInProgress := false, updateResult := "success",
                                 updateErrorMessage := "" },
               effects := Effect.onProgress :: Effect.update url ::
                 (ps.map (progressPublish s) ++
                   [statusPublish s "completed" "Update successful" newVersion,
                    Effect.delay 1000]),
               seen := transferStates target
                 { s with updateInProgress := true, updateResult := "",
                          updateErrorMessage := "" } transfer.progress } := by
  have hrun := runCallbacks_of_percents target
    { s with updateInProgress := true, updateResult := "", updateErrorMessage := "" }
    transfer.progress ps hps
  unfold startUpdate
  simp only [hidle, hver, if_false, Bool.false_eq_true, hrun]
  cases transfer.ret <;> rfl

end SwissAirDryOTA

namespace SwissAirDryOTA

/-! ## Payloads -/

/-- The progress document as text. -/
theorem progress_payload (p : Int) :
    serializeJson [("progress", JsonValue.int p)]
      = "\x7b\"progress\":" ++ toString p ++ "\x7d" := by
  have hq : jsonQuote "progress" = "\"progress\"" := by decide
  simp only [serializeJson, List.map, jsonMember, hq]
  have hi : ",".intercalate ["\"progress\"" ++ ":" ++ toString p]
      = "\"progress\"" ++ ":" ++ toString p := by
    simp [String.intercalate, String.intercalate.go]
  rw [hi]
  apply String.ext
  simp [String.data_append]

/-- The status document as text. -/
theorem status_payload (status message version : String) :
    serializeJson [("status", JsonValue.str status), ("message", JsonValue.str message),
        ("version", JsonValue.str version)]
      = "\x7b\"status\":" ++ jsonQuote status ++ ",\"message\":" ++ jsonQuote message
          ++ ",\"version\":" ++ jsonQuote version ++ "\x7d" := by
  have h1 : jsonQuote "status" = "\"status\"" := by decide
  have h2 : jsonQuote "message" = "\"message\"" := by decide
  have h3 : jsonQuote "version" = "\"version\"" := by decide
  simp only [serializeJson, List.map, jsonMember, h1, h2, h3]
  apply String.ext
  simp [String.intercalate, String.intercalate.go, String.data_append]

end SwissAirDryOTA

namespace SwissAirDryOTA

/-- The status message of a completed update as text. -/
theorem completed_publish (s : SwissAirDryOTA) (version : String) :
    statusPublish s "completed" "Update successful" version
      = Effect.client (Call.publish ("swissairdry/" ++ s.deviceId ++ "/ota/status")
          ("\x7b\"status\":\"completed\",\"message\":\"Update successful\",\"version\":"
            ++ jsonQuote version ++ "\x7d") false) := by
  have h1 : jsonQuote "completed" = "\"completed\"" := by decide
  have h2 : jsonQuote "Update successful" = "\"Update successful\"" := by decide
  simp only [statusPublish, status_payload, h1, h2]
  congr 2

/-- The status message of a failed update as text. -/
theorem failed_publish (s : SwissAirDryOTA) (message version : String) :
    statusPublish s "failed" message version
      = Effect.client (Call.publish ("swissairdry/" ++ s.deviceId ++ "/ota/status")
          ("\x7b\"status\":\"failed\",\"message\":" ++ jsonQuote message ++ ",\"version\":"
            ++ jsonQuote version ++ "\x7d") false) := by
  have h1 : jsonQuote "failed" = "\"failed\"" := by decide
  simp only [statusPublish, status_payload, h1]
  congr 2

/-- The status message of an update that found nothing as text. -/
theorem no_updates_publish (s : SwissAirDryOTA) (version : String) :
    statusPublish s "no_updates" "No updates available" version
      = Effect.client (Call.publish ("swissairdry/" ++ s.deviceId ++ "/ota/status")
          ("\x7b\"status\":\"no_updates\",\"message\":\"No updates available\",\"version\":"
            ++ jsonQuote version ++ "\x7d") false) := by
  have h1 : jsonQuote "no_updates" = "\"no_updates\"" := by decide
  have h2 : jsonQuote "No updates available" = "\"No updates available\"" := by decide
  simp only [statusPublish, status_payload, h1, h2]
  congr 2

/-! ## Terminal outcomes of an accepted update -/

/-- C15: an accepted `startUpdate(url, checksum, target)` (no job in progress,
`target` other than the current version) whose transfer runs its callbacks and
reports success returns true with result `success`, empty error message and
the flag cleared; after the progress messages it publishes
`{"status":"completed","message":"Update successful","version":<target>}` to
`swissairdry/<deviceId>/ota/status`, which is the last message published. -/
theorem startUpdate_success_reported (target : Target) (s : SwissAirDryOTA)
    (url expectedMd5 newVersion : String) (transfer : Transfer)
    (hidle : s.isUpdateInProgress = false) (hver : newVersion ≠ s.currentVersion)
    (hrun : ∀ c ∈ transfer.progress, c.2 ≠ 0)
    (hret : transfer.ret = HTTPUpdateResult.HTTP_UPDATE_OK) :
    ∃ ps out,
      List.Forall₂ (fun c p => percent target c.1 c.2 = some p) transfer.progress ps ∧
      startUpdate target s url expectedMd5 newVersion transfer = some out ∧
      out.result = true ∧
      out.state.getUpdateResult = "success" ∧
      out.state.getUpdateErrorMessage = "" ∧
      out.state.isUpdateInProgress = false ∧
      out.effects = Effect.onProgress :: Effect.update url ::
        (ps.map (progressPublish s) ++
          [Effect.client (Call.publish ("swissairdry/" ++ s.deviceId ++ "/ota/status")
            ("\x7b\"status\":\"completed\",\"message\":\"Update successful\",\"version\":"
              ++ jsonQuote newVersion ++ "\x7d") false),
           Effect.delay 1000]) ∧
      (out.effects.filterMap Effect.published).getLast?
        = some ("swissairdry/" ++ s.deviceId ++ "/ota/status",
            "\x7b\"status\":\"completed\",\"message\":\"Update successful\",\"version\":"
              ++ jsonQuote newVersion ++ "\x7d") := by
  obtain ⟨ps, hps⟩ := percents_exist target transfer.progress hrun
  have h := startUpdate_of_percents target s url expectedMd5 newVersion transfer ps hidle hver hps
  rw [hret] at h
  simp only [completed_publish] at h
  refine ⟨ps, _, hps, h, rfl, rfl, rfl, rfl, rfl, ?_⟩
  simp [List.filterMap_append, List.filterMap_cons, Effect.published, List.getLast?_append]

/-- C16: an accepted `startUpdate` with target version `v` whose transfer runs
its callbacks and reports failure with message `m` returns false with result
`failed` and error message `m`; after the progress messages it publishes
`{"status":"failed","message":m,"version":v}` to
`swissairdry/<deviceId>/ota/status` and nothing after it. -/
theorem startUpdate_failure_reported (target : Target) (s : SwissAirDryOTA)
    (url expectedMd5 newVersion : String) (transfer : Transfer)
    (hidle : s.isUpdateInProgress = false) (hver : newVersion ≠ s.currentVersion)
    (hrun : ∀ c ∈ transfer.progress, c.2 ≠ 0)
    (hret : transfer.ret = HTTPUpdateResult.HTTP_UPDATE_FAILED) :
    ∃ ps out,
      List.Forall₂ (fun c p => percent target c.1 c.2 = some p) transfer.progress ps ∧
      startUpdate target s url expectedMd5 newVersion transfer = some out ∧
      out.result = false ∧
      out.state.getUpdateResult = "failed" ∧
      out.state.getUpdateErrorMessage = transfer.lastErrorString ∧
      out.state.isUpdateInProgress = false ∧
      out.effects = Effect.onProgress :: Effect.update url ::
        (ps.map (progressPublish s) ++
          [Effect.client (Call.publish ("swissairdry/" ++ s.deviceId ++ "/ota/status")
            ("\x7b\"status\":\"failed\",\"message\":" ++ jsonQuote transfer.lastErrorString
              ++ ",\"version\":" ++ jsonQuote newVersion ++ "\x7d") false)]) ∧
      (out.effects.filterMap Effect.published).getLast?
        = some ("swissairdry/" ++ s.deviceId ++ "/ota/status",
            "\x7b\"status\":\"failed\",\"message\":" ++ jsonQuote transfer.lastErrorString
              ++ ",\"version\":" ++ jsonQuote newVersion ++ "\x7d") := by
  obtain ⟨ps, hps⟩ := percents_exist target transfer.progress hrun
  have h := startUpdate_of_percents target s url expectedMd5 newVersion transfer ps hidle hver hps
  rw [hret] at h
  simp only [failed_publish] at h
  refine ⟨ps, _, hps, h, rfl, rfl, rfl, rfl, rfl, ?_⟩
  simp [List.filterMap_append, List.filterMap_cons, Effect.published, List.getLast?_append]

/-- C17: an accepted `startUpdate` whose transfer runs its callbacks and reports
that there is no update returns false with result `no_updates`; after the
progress messages it publishes
`{"status":"no_updates","message":"No updates available","version":<current>}`,
with the current and not the requested version, to
`swissairdry/<deviceId>/ota/status` and nothing after it. -/
theorem startUpdate_no_updates_reported (target : Target) (s : SwissAirDryOTA)
    (url expectedMd5 newVersion : String) (transfer : Transfer)
    (hidle : s.isUpdateInProgress = false) (hver : newVersion ≠ s.currentVersion)
    (hrun : ∀ c ∈ transfer.progress, c.2 ≠ 0)
    (hret : transfer.ret = HTTPUpdateResult.HTTP_UPDATE_NO_UPDATES) :
    ∃ ps out,
      List.Forall₂ (fun c p => percent target c.1 c.2 = some p) transfer.progress ps ∧
      startUpdate target s url expectedMd5 newVersion transfer = some out ∧
      out.result = false ∧
      out.state.getUpdateResult = "no_updates" ∧
      out.state.isUpdateInProgress = false ∧
      out.effects = Effect.onProgress :: Effect.update url ::
        (ps.map (progressPublish s) ++
          [Effect.client (Call.publish ("swissairdry/" ++ s.deviceId ++ "/ota/status")
            ("\x7b\"status\":\"no_updates\",\"message\":\"No updates available\",\"version\":"
              ++ jsonQuote s.currentVersion ++ "\x7d") false)]) ∧
      (out.effects.filterMap Effect.published).getLast?
        = some ("swissairdry/" ++ s.deviceId ++ "/ota/status",
            "\x7b\"status\":\"no_updates\",\"message\":\"No updates available\",\"version\":"
              ++ jsonQuote s.currentVersion ++ "\x7d") := by
  obtain ⟨ps, hps⟩ := percents_exist target transfer.progress hrun
  have h := startUpdate_of_percents target s url expectedMd5 newVersion transfer ps hidle hver hps
  rw [hret] at h
  simp only [no_updates_publish] at h
  refine ⟨ps, _, hps, h, rfl, rfl, rfl, rfl, ?_⟩
  simp [List.filterMap_append, List.filterMap_cons, Effect.published, List.getLast?_append]

end SwissAirDryOTA

namespace SwissAirDryOTA

/-- C15 at the scenario of the specification: current version 1.0.0,
`startUpdate("http://x/fw.bin", "deadbeef", "2.0.0")`, the transfer reports
success after three progress callbacks. -/
theorem startUpdate_success_reported_witness :
    (sampleOta.isUpdateInProgress = false ∧ "2.0.0" ≠ sampleOta.currentVersion ∧
      (∀ c ∈ (sampleTransfer HTTPUpdateResult.HTTP_UPDATE_OK "").progress, c.2 ≠ 0) ∧
      (sampleTransfer HTTPUpdateResult.HTTP_UPDATE_OK "").ret
        = HTTPUpdateResult.HTTP_UPDATE_OK) ∧
    ∃ out,
      startUpdate Target.esp8266 sampleOta "http://x/fw.bin" "deadbeef" "2.0.0"
        (sampleTransfer HTTPUpdateResult.HTTP_UPDATE_OK "") = some out ∧
      out.result = true ∧
      out.state.getUpdateResult = "success" ∧
      out.state.getUpdateErrorMessage = "" ∧
      (out.effects.filterMap Effect.published).getLast?
        = some ("swissairdry/abc123/ota/status",
            "\x7b\"status\":\"completed\",\"message\":\"Update successful\",\"version\":\"2.0.0\"\x7d") := by
  refine ⟨by decide, ?_⟩
  obtain ⟨_, out, _, h1, h2, h3, h4, _, _, h5⟩ :=
    startUpdate_success_reported Target.esp8266 sampleOta "http://x/fw.bin" "deadbeef" "2.0.0"
      (sampleTransfer HTTPUpdateResult.HTTP_UPDATE_OK "") (by decide) (by decide) (by decide)
      (by decide)
  exact ⟨out, h1, h2, h3, h4, h5⟩

/-- C16 at a concrete input: the transfer of the sample device fails with
`HTTP error: connection refused`. -/
theorem startUpdate_failure_reported_witness :
    (sampleOta.isUpdateInProgress = false ∧ "2.0.0" ≠ sampleOta.currentVersion ∧
      (∀ c ∈ (sampleTransfer HTTPUpdateResult.HTTP_UPDATE_FAILED
          "HTTP error: connection refused").progress, c.2 ≠ 0) ∧
      (sampleTransfer HTTPUpdateResult.HTTP_UPDATE_FAILED "HTTP error: connection refused").ret
        = HTTPUpdateResult.HTTP_UPDATE_FAILED) ∧
    ∃ out,
      startUpdate Target.esp8266 sampleOta "http://x/fw.bin" "deadbeef" "2.0.0"
        (sampleTransfer HTTPUpdateResult.HTTP_UPDATE_FAILED "HTTP error: connection refused")
        = some out ∧
      out.result = false ∧
      out.state.getUpdateResult = "failed" ∧
      out.state.getUpdateErrorMessage = "HTTP error: connection refused" ∧
      (out.effects.filterMap Effect.published).getLast?
        = some ("swissairdry/abc123/ota/status",
            "\x7b\"status\":\"failed\",\"message\":\"HTTP error: connection refused\",\"version\":\"2.0.0\"\x7d") := by
  refine ⟨by decide, ?_⟩
  obtain ⟨_, out, _, h1, h2, h3, h4, _, _, h5⟩ :=
    startUpdate_failure_reported Target.esp8266 sampleOta "http://x/fw.bin" "deadbeef" "2.0.0"
      (sampleTransfer HTTPUpdateResult.HTTP_UPDATE_FAILED "HTTP error: connection refused")
      (by decide) (by decide) (by decide) (by decide)
  exact ⟨out, h1, h2, h3, h4, h5⟩

/-- C17 at a concrete input: the transfer of the sample device, running 1.0.0
and asked for 2.0.0, reports that there is no update. -/
theorem startUpdate_no_updates_reported_witness :
    (sampleOta.isUpdateInProgress = false ∧ "2.0.0" ≠ sampleOta.currentVersion ∧
      (∀ c ∈ (sampleTransfer HTTPUpdateResult.HTTP_UPDATE_NO_UPDATES "").progress, c.2 ≠ 0) ∧
      (sampleTransfer HTTPUpdateResult.HTTP_UPDATE_NO_UPDATES "").ret
        = HTTPUpdateResult.HTTP_UPDATE_NO_UPDATES) ∧
    ∃ out,
      startUpdate Target.esp8266 sampleOta "http://x/fw.bin" "deadbeef" "2.0.0"
        (sampleTransfer HTTPUpdateResult.HTTP_UPDATE_NO_UPDATES "") = some out ∧
      out.result = false ∧
      out.state.getUpdateResult = "no_updates" ∧
      (out.effects.filterMap Effect.published).getLast?
        = some ("swissairdry/abc123/ota/status",
            "\x7b\"status\":\"no_updates\",\"message\":\"No updates available\",\"version\":\"1.0.0\"\x7d") := by
  refine ⟨by decide, ?_⟩
  obtain ⟨_, out, _, h1, h2, h3, _, _, h5⟩ :=
    startUpdate_no_updates_reported Target.esp8266 sampleOta "http://x/fw.bin" "deadbeef" "2.0.0"
      (sampleTransfer HTTPUpdateResult.HTTP_UPDATE_NO_UPDATES "")
      (by decide) (by decide) (by decide) (by decide)
  exact ⟨out, h1, h2, h3, h5⟩

end SwissAirDryOTA

namespace SwissAirDryOTA

/-! ## Progress reports -/

/-- C18 as stated fails: the callback applies no clamp.  For 200 bytes of 100
both builds publish `{"progress":200}`. -/
theorem progress_beyond_total_not_clamped :
    updateCallback Target.esp8266 sampleOta 200 100
        = some (sampleOta, [Effect.client (Call.publish "swissairdry/abc123/ota/progress"
            "\x7b\"progress\":200\x7d" false)]) ∧
      updateCallback Target.esp32 sampleOta 200 100
        = some (sampleOta, [Effect.client (Call.publish "swissairdry/abc123/ota/progress"
            "\x7b\"progress\":200\x7d" false)]) ∧
      ¬ ((200 : Int) ≤ 100) := by
  decide

/-- C18, as the code has it: for a positive `total` and a non-negative
`progress` whose hundredfold fits in `int`, the callback publishes the
rounded-down quotient `progress * 100 / total` as it is, without clamp; that
value is at least 0, and at most 100 when `progress` does not exceed `total`. -/
theorem progress_percent_unclamped_quotient (target : Target) (s : SwissAirDryOTA)
    (progress total : Int) (h0 : 0 ≤ progress) (hpos : 0 < total)
    (hfit : progress * 100 < 2147483648) :
    updateCallback target s progress total
        = some (s, [Effect.client (Call.publish ("swissairdry/" ++ s.deviceId ++ "/ota/progress")
            ("\x7b\"progress\":" ++ toString (progress * 100 / total) ++ "\x7d") false)]) ∧
      0 ≤ progress * 100 / total ∧
      (progress ≤ total → progress * 100 / total ≤ 100) := by
  refine ⟨?_, ?_, ?_⟩
  · simp [updateCallback, percent_of_fitting target progress total h0 hpos hfit,
      progressPublish, progress_payload]
  · exact Int.ediv_nonneg (by omega) (le_of_lt hpos)
  · intro hle
    exact Int.ediv_le_of_le_mul hpos (by omega)

/-- C18 at a concrete input: 2048 bytes of 4096 on the sample device. -/
theorem progress_percent_unclamped_quotient_witness :
    ((0 : Int) ≤ 2048 ∧ (0 : Int) < 4096 ∧ (2048 : Int) * 100 < 2147483648) ∧
      updateCallback Target.esp8266 sampleOta 2048 4096
        = some (sampleOta, [Effect.client (Call.publish "swissairdry/abc123/ota/progress"
            "\x7b\"progress\":50\x7d" false)]) :=
  ⟨by decide,
    (progress_percent_unclamped_quotient Target.esp8266 sampleOta 2048 4096 (by decide)
      (by decide) (by decide)).1⟩

/-- C19 as stated fails: the callback keeps no record of earlier reports.  Called
with 50 of 100 bytes and then with 20 of 100 it publishes 50 and then 20. -/
theorem progress_reports_can_decrease :
    runCallbacks Target.esp8266 sampleOta [(50, 100), (20, 100)]
        = some (sampleOta,
            [Effect.client (Call.publish "swissairdry/abc123/ota/progress"
              "\x7b\"progress\":50\x7d" false),
             Effect.client (Call.publish "swissairdry/abc123/ota/progress"
              "\x7b\"progress\":20\x7d" false)]) ∧
      ¬ ((50 : Int) ≤ 20) := by
  decide

/-- The percents of callbacks with one positive `total` and fitting progress. -/
theorem percents_of_fitting (target : Target) (total : Int) (cbs : List (Int × Int))
    (hpos : 0 < total)
    (hcbs : ∀ c ∈ cbs, c.2 = total ∧ 0 ≤ c.1 ∧ c.1 * 100 < 2147483648) :
    List.Forall₂ (fun c p => percent target c.1 c.2 = some p) cbs
      (cbs.map (fun c => c.1 * 100 / total)) := by
  induction cbs with
  | nil => exact List.Forall₂.nil
  | cons c cbs ih =>
    obtain ⟨h1, h2, h3⟩ := hcbs c (by simp)
    refine List.Forall₂.cons ?_ (ih (fun c hc => hcbs c (by simp [hc])))
    rw [h1]
    exact percent_of_fitting target c.1 total h2 hpos h3

/-- C19, as the code has it: when the transfer collaborator reports a
non-decreasing, non-negative `progress` (hundredfold fitting in `int`) against
one positive `total`, the percents published during the job, one per callback,
are non-decreasing. -/
theorem progress_monotone_on_monotone_input (target : Target) (s : SwissAirDryOTA)
    (total : Int) (cbs : List (Int × Int)) (hpos : 0 < total)
    (hcbs : ∀ c ∈ cbs, c.2 = total ∧ 0 ≤ c.1 ∧ c.1 * 100 < 2147483648)
    (hsorted : cbs.Pairwise (fun a b => a.1 ≤ b.1)) :
    runCallbacks target s cbs
        = some (s, (cbs.map (fun c => c.1 * 100 / total)).map (progressPublish s)) ∧
      (cbs.map (fun c => c.1 * 100 / total)).Pairwise (fun p q => p ≤ q) := by
  refine ⟨runCallbacks_of_percents target s cbs _ (percents_of_fitting target total cbs hpos hcbs),
    ?_⟩
  refine List.Pairwise.map _ ?_ hsorted
  intro a b hab
  exact Int.ediv_le_ediv hpos (by omega)

/-- C19 at a concrete input: the three callbacks of the sample transfer. -/
theorem progress_monotone_on_monotone_input_witness :
    ((0 : Int) < 4096 ∧
      (∀ c ∈ [((0 : Int), (4096 : Int)), (2048, 4096), (4096, 4096)],
        c.2 = 4096 ∧ 0 ≤ c.1 ∧ c.1 * 100 < 2147483648) ∧
      [((0 : Int), (4096 : Int)), (2048, 4096), (4096, 4096)].Pairwise
        (fun a b => a.1 ≤ b.1)) ∧
    (runCallbacks Target.esp8266 sampleOta [(0, 4096), (2048, 4096), (4096, 4096)]
        = some (sampleOta,
            ([((0 : Int), (4096 : Int)), (2048, 4096), (4096, 4096)].map
              (fun c => c.1 * 100 / 4096)).map (progressPublish sampleOta)) ∧
      ([((0 : Int), (4096 : Int)), (2048, 4096), (4096, 4096)].map
        (fun c => c.1 * 100 / 4096)).Pairwise (fun p q => p ≤ q)) :=
  ⟨by decide,
    progress_monotone_on_monotone_input Target.esp8266 sampleOta 4096
      [(0, 4096), (2048, 4096), (4096, 4096)] (by decide) (by decide) (by decide)⟩

/-- C20 as stated fails for a callback with `total = 0`: the division stops the
program and nothing is published. -/
theorem progress_callback_zero_total :
    updateCallback Target.esp8266 sampleOta 5 0 = none ∧
      updateCallback Target.esp32 sampleOta 5 0 = none := by
  decide

/-- C20, as the code has it: every invocation of the progress callback with a
`total` other than zero publishes exactly one message, to
`swissairdry/<deviceId>/ota/progress`, with payload `{"progress":p}` for the
percent `p` of that invocation, and leaves the object unchanged; `n` such
callbacks give `n` messages in callback order. -/
theorem callbacks_publish_one_each (target : Target) (s : SwissAirDryOTA)
    (cbs : List (Int × Int)) (h : ∀ c ∈ cbs, c.2 ≠ 0) :
    (∀ c ∈ cbs, ∃ p, percent target c.1 c.2 = some p ∧
        updateCallback target s c.1 c.2
          = some (s, [Effect.client (Call.publish
              ("swissairdry/" ++ s.deviceId ++ "/ota/progress")
              ("\x7b\"progress\":" ++ toString p ++ "\x7d") false)])) ∧
      ∃ ps, List.Forall₂ (fun c p => percent target c.1 c.2 = some p) cbs ps ∧
        ps.length = cbs.length ∧
        runCallbacks target s cbs
          = some (s, ps.map (fun p => Effect.client (Call.publish
              ("swissairdry/" ++ s.deviceId ++ "/ota/progress")
              ("\x7b\"progress\":" ++ toString p ++ "\x7d") false))) := by
  constructor
  · intro c hc
    obtain ⟨p, hp⟩ := percent_isSome target c.1 c.2 (h c hc)
    exact ⟨p, hp, by simp [updateCallback, hp, progressPublish, progress_payload]⟩
  · obtain ⟨ps, hps⟩ := percents_exist target cbs h
    refine ⟨ps, hps, hps.length_eq.symm, ?_⟩
    rw [runCallbacks_of_percents target s cbs ps hps]
    simp [progressPublish, progress_payload]

/-- C20 at a concrete input: the three callbacks of the sample transfer. -/
theorem callbacks_publish_one_each_witness :
    (∀ c ∈ [((0 : Int), (4096 : Int)), (2048, 4096), (4096, 4096)], c.2 ≠ 0) ∧
      ∃ ps, List.Forall₂ (fun c p => percent Target.esp8266 c.1 c.2 = some p)
          [((0 : Int), (4096 : Int)), (2048, 4096), (4096, 4096)] ps ∧
        ps.length = 3 ∧
        runCallbacks Target.esp8266 sampleOta [(0, 4096), (2048, 4096), (4096, 4096)]
          = some (sampleOta, ps.map (fun p => Effect.client (Call.publish
              "swissairdry/abc123/ota/progress"
              ("\x7b\"progress\":" ++ toString p ++ "\x7d") false))) :=
  ⟨by decide,
    (callbacks_publish_one_each Target.esp8266 sampleOta
      [(0, 4096), (2048, 4096), (4096, 4096)] (by decide)).2⟩

end SwissAirDryOTA

namespace SwissAirDryOTA

/-! ## Jobs -/

/-- A `startUpdate` call that returns leaves the in-progress flag as a call
made with the flag cleared must: cleared. -/
theorem startUpdate_returns_idle (target : Target) (s : SwissAirDryOTA)
    (url expectedMd5 newVersion : String) (transfer : Transfer) (out : OtaOutcome)
    (hidle : s.updateInProgress = false)
    (hout : startUpdate target s url expectedMd5 newVersion transfer = some out) :
    out.state.updateInProgress = false := by
  unfold startUpdate at hout
  simp only [hidle, Bool.false_eq_true, if_false] at hout
  split at hout
  · cases hout; exact hidle
  · split at hout
    · cases hout
    · split at hout <;> cases hout <;> rfl

/-- A `startUpdate` call whose callbacks all have a `total` other than zero returns. -/
theorem startUpdate_returns (target : Target) (s : SwissAirDryOTA)
    (url expectedMd5 newVersion : String) (transfer : Transfer)
    (hrun : ∀ c ∈ transfer.progress, c.2 ≠ 0) :
    ∃ out, startUpdate target s url expectedMd5 newVersion transfer = some out := by
  obtain ⟨ps, hps⟩ := percents_exist target transfer.progress hrun
  have hcb := runCallbacks_of_percents target
    { s with updateInProgress := true, updateResult := "", updateErrorMessage := "" }
    transfer.progress ps hps
  unfold startUpdate
  split
  · exact ⟨_, rfl⟩
  · split
    · exact ⟨_, rfl⟩
    · simp only [hcb]
      cases transfer.ret <;> exact ⟨_, rfl⟩

/-- C21: an accepted `startUpdate` whose transfer runs its callbacks returns, for
each of the three transfer results, with the in-progress flag cleared and with
the one result that belongs to the transfer result (`success`, `failed` or
`no_updates`); and in every sequence of top-level `startUpdate` calls started
with the flag cleared, accepted or rejected, each call returns and the flag is
cleared after each of them, so that no call begins while a job is in progress. -/
theorem startUpdate_job_ends_before_return (target : Target) (s : SwissAirDryOTA)
    (requests : List UpdateRequest)
    (hidle : s.isUpdateInProgress = false)
    (hrun : ∀ r ∈ requests, ∀ c ∈ r.transfer.progress, c.2 ≠ 0) :
    (∀ r ∈ requests, ∀ s1 : SwissAirDryOTA, s1.isUpdateInProgress = false →
        r.newVersion ≠ s1.currentVersion →
        ∃ out, startUpdate target s1 r.url r.expectedMd5 r.newVersion r.transfer = some out ∧
          out.state.isUpdateInProgress = false ∧
          ((r.transfer.ret = HTTPUpdateResult.HTTP_UPDATE_OK ∧
              out.state.getUpdateResult = "success") ∨
           (r.transfer.ret = HTTPUpdateResult.HTTP_UPDATE_FAILED ∧
              out.state.getUpdateResult = "failed") ∨
           (r.transfer.ret = HTTPUpdateResult.HTTP_UPDATE_NO_UPDATES ∧
              out.state.getUpdateResult = "no_updates"))) ∧
      ∃ states, startUpdates target s requests = some states ∧
        states.length = requests.length ∧
        ∀ st ∈ states, st.isUpdateInProgress = false := by
  constructor
  · intro r hr s1 h1 hver
    obtain ⟨ps, hps⟩ := percents_exist target r.transfer.progress (hrun r hr)
    have h := startUpdate_of_percents target s1 r.url r.expectedMd5 r.newVersion r.transfer ps
      h1 hver hps
    cases hret : r.transfer.ret <;> rw [hret] at h <;> exact ⟨_, h, rfl, by simp [getUpdateResult]⟩
  · unfold isUpdateInProgress at hidle
    induction requests generalizing s with
    | nil => exact ⟨[], rfl, rfl, by simp⟩
    | cons r rest ih =>
      obtain ⟨out, hout⟩ := startUpdate_returns target s r.url r.expectedMd5 r.newVersion
        r.transfer (hrun r (by simp))
      have hflag := startUpdate_returns_idle target s r.url r.expectedMd5 r.newVersion
        r.transfer out hidle hout
      obtain ⟨states, hstates, hlen, hall⟩ :=
        ih out.state hflag (fun r' hr' => hrun r' (by simp [hr']))
      refine ⟨out.state :: states, by simp [startUpdates, hout, hstates], by simp [hlen], ?_⟩
      intro st hst
      rcases List.mem_cons.1 hst with h | h
      · rw [h]; exact hflag
      · exact hall st h

end SwissAirDryOTA

namespace SwissAirDryOTA

/-- C21 at a concrete input: the sample device is asked for 2.0.0 (transfer
succeeds), for its own 1.0.0 (rejected) and for 3.0.0 (transfer fails). -/
theorem startUpdate_job_ends_before_return_witness :
    (sampleOta.isUpdateInProgress = false ∧
      ∀ r ∈ [({ url := "http://x/fw.bin", expectedMd5 := "deadbeef", newVersion := "2.0.0",
                transfer := sampleTransfer HTTPUpdateResult.HTTP_UPDATE_OK "" } : UpdateRequest),
             { url := "http://x/fw.bin", expectedMd5 := "deadbeef", newVersion := "1.0.0",
               transfer := sampleTransfer HTTPUpdateResult.HTTP_UPDATE_OK "" },
             { url := "http://x/fw3.bin", expectedMd5 := "cafe", newVersion := "3.0.0",
               transfer := sampleTransfer HTTPUpdateResult.HTTP_UPDATE_FAILED "timeout" }],
        ∀ c ∈ r.transfer.progress, c.2 ≠ 0) ∧
    ∃ states,
      startUpdates Target.esp8266 sampleOta
        [{ url := "http://x/fw.bin", expectedMd5 := "deadbeef", newVersion := "2.0.0",
           transfer := sampleTransfer HTTPUpdateResult.HTTP_UPDATE_OK "" },
         { url := "http://x/fw.bin", expectedMd5 := "deadbeef", newVersion := "1.0.0",
           transfer := sampleTransfer HTTPUpdateResult.HTTP_UPDATE_OK "" },
         { url := "http://x/fw3.bin", expectedMd5 := "cafe", newVersion := "3.0.0",
           transfer := sampleTransfer HTTPUpdateResult.HTTP_UPDATE_FAILED "timeout" }]
        = some states ∧
      states.length = 3 ∧
      ∀ st ∈ states, st.isUpdateInProgress = false :=
  ⟨by decide,
    (startUpdate_job_ends_before_return Target.esp8266 sampleOta
      [{ url := "http://x/fw.bin", expectedMd5 := "deadbeef", newVersion := "2.0.0",
         transfer := sampleTransfer HTTPUpdateResult.HTTP_UPDATE_OK "" },
       { url := "http://x/fw.bin", expectedMd5 := "deadbeef", newVersion := "1.0.0",
         transfer := sampleTransfer HTTPUpdateResult.HTTP_UPDATE_OK "" },
       { url := "http://x/fw3.bin", expectedMd5 := "cafe", newVersion := "3.0.0",
         transfer := sampleTransfer HTTPUpdateResult.HTTP_UPDATE_FAILED "timeout" }]
      (by decide) (by decide)).2⟩

/-- The callbacks of a transfer leave the object as they found it. -/
theorem runCallbacks_keeps_state (target : Target) (s s2 : SwissAirDryOTA)
    (cbs : List (Int × Int)) (effects : List Effect)
    (h : runCallbacks target s cbs = some (s2, effects)) : s2 = s := by
  induction cbs generalizing effects with
  | nil =>
    simp only [runCallbacks, Option.some.injEq, Prod.mk.injEq] at h
    exact h.1.symm
  | cons c cbs ih =>
    obtain ⟨progress, total⟩ := c
    simp only [runCallbacks, updateCallback] at h
    cases hp : percent target progress total with
    | none => simp [hp] at h
    | some p =>
      simp only [hp] at h
      cases hr : runCallbacks target s cbs with
      | none => simp [hr] at h
      | some r =>
        obtain ⟨s3, e3⟩ := r
        simp only [hr, Option.some.injEq, Prod.mk.injEq] at h
        rw [h.1] at hr
        exact ih e3 hr

/-- While no callback has a `total` of zero, the object stays what it was during
the whole transfer: once as `update(url)` finds it and once after each callback. -/
theorem transferStates_of_run (target : Target) (s : SwissAirDryOTA)
    (cbs : List (Int × Int)) (hrun : ∀ c ∈ cbs, c.2 ≠ 0) :
    transferStates target s cbs = List.replicate (cbs.length + 1) s := by
  induction cbs with
  | nil => rfl
  | cons c cbs ih =>
    obtain ⟨progress, total⟩ := c
    obtain ⟨p, hp⟩ := percent_isSome target progress total (hrun (progress, total) (by simp))
    have hrest := ih (fun c hc => hrun c (by simp [hc]))
    simp [transferStates, updateCallback, hp, hrest, List.replicate_succ]

/-- The effects of an accepted update hold one call of the transfer collaborator. -/
theorem started_effects_one_update (s : SwissAirDryOTA) (url : String) (ps : List Int)
    (tail : List Effect) (htail : ∀ e ∈ tail, e.isUpdate = false) :
    (Effect.onProgress :: Effect.update url ::
      (ps.map (progressPublish s) ++ tail)).filter Effect.isUpdate = [Effect.update url] := by
  have h1 : (ps.map (progressPublish s)).filter Effect.isUpdate = [] := by
    rw [List.filter_eq_nil_iff]
    intro e he
    obtain ⟨p, _, hp⟩ := List.mem_map.1 he
    rw [← hp]; simp [progressPublish, Effect.isUpdate]
  have h2 : tail.filter Effect.isUpdate = [] := by
    rw [List.filter_eq_nil_iff]
    intro e he
    simp [htail e he]
  simp [List.filter_cons, Effect.isUpdate, List.filter_append, h1, h2]

/-- C22: with no job in progress and a target version other than the current
one, `startUpdate(sourceUrl, checksum, targetVersion)` whose transfer runs its
callbacks returns, and in what it returns the object was, when `update(url)`
was called and after every invocation of the progress callback, marked in
progress with result and error message empty (whatever an earlier job left in
them) and with device id and current version untouched; the effects hold
exactly one call of the transfer collaborator, with `sourceUrl`, followed by one
progress message per callback and then the final effects. -/
theorem startUpdate_accepted_marks_in_progress (target : Target) (s : SwissAirDryOTA)
    (url expectedMd5 newVersion : String) (transfer : Transfer)
    (hidle : s.isUpdateInProgress = false) (hver : newVersion ≠ s.currentVersion)
    (hrun : ∀ c ∈ transfer.progress, c.2 ≠ 0) :
    ∃ out ps finalEffects,
      startUpdate target s url expectedMd5 newVersion transfer = some out ∧
      out.seen.length = transfer.progress.length + 1 ∧
      (∀ o ∈ out.seen,
        o.isUpdateInProgress = true ∧ o.getUpdateResult = "" ∧ o.getUpdateErrorMessage = "" ∧
        o.deviceId = s.deviceId ∧ o.currentVersion = s.currentVersion) ∧
      List.Forall₂ (fun c p => percent target c.1 c.2 = some p) transfer.progress ps ∧
      out.effects = Effect.onProgress :: Effect.update url ::
        (ps.map (progressPublish s) ++ finalEffects) ∧
      out.effects.filter Effect.isUpdate = [Effect.update url] := by
  unfold isUpdateInProgress at hidle
  obtain ⟨ps, hps⟩ := percents_exist target transfer.progress hrun
  have h := startUpdate_of_percents target s url expectedMd5 newVersion transfer ps
    hidle hver hps
  have hseen := transferStates_of_run target
    { s with updateInProgress := true, updateResult := "", updateErrorMessage := "" }
    transfer.progress hrun
  have hall : ∀ o ∈ List.replicate (transfer.progress.length + 1)
      ({ s with updateInProgress := true, updateResult := "", updateErrorMessage := "" } :
        SwissAirDryOTA),
      o.isUpdateInProgress = true ∧ o.getUpdateResult = "" ∧ o.getUpdateErrorMessage = "" ∧
      o.deviceId = s.deviceId ∧ o.currentVersion = s.currentVersion := by
    intro o ho
    rw [List.eq_of_mem_replicate ho]
    exact ⟨rfl, rfl, rfl, rfl, rfl⟩
  rw [hseen] at h
  cases hret : transfer.ret <;> rw [hret] at h
  · exact ⟨_, ps, [statusPublish s "failed" transfer.lastErrorString newVersion], h,
      by simp, hall, hps, rfl,
      started_effects_one_update s url ps _ (by simp [statusPublish, Effect.isUpdate])⟩
  · exact ⟨_, ps, [statusPublish s "no_updates" "No updates available" s.currentVersion], h,
      by simp, hall, hps, rfl,
      started_effects_one_update s url ps _ (by simp [statusPublish, Effect.isUpdate])⟩
  · exact ⟨_, ps, [statusPublish s "completed" "Update successful" newVersion,
        Effect.delay 1000], h,
      by simp, hall, hps, rfl,
      started_effects_one_update s url ps _ (by simp [statusPublish, Effect.isUpdate])⟩

/-- C23: the `expectedMd5` argument has no influence: two `startUpdate` calls
that differ only in it give the same return value, the same object and the same
effects (the same messages in the same order), for every build, state, url,
version and transfer.  Nothing in `startUpdate` computes or compares a checksum. -/
theorem startUpdate_ignores_checksum (target : Target) (s : SwissAirDryOTA)
    (url expectedMd5 otherMd5 newVersion : String) (transfer : Transfer) :
    startUpdate target s url expectedMd5 newVersion transfer
      = startUpdate target s url otherMd5 newVersion transfer := by
  rfl

end SwissAirDryOTA

namespace SwissAirDryOTA

/-- C22 at a concrete input: the sample device, whose previous job failed with
`timeout`, is asked for 2.0.0 and the transfer reports progress three times. -/
theorem startUpdate_accepted_marks_in_progress_witness :
    (({ sampleOta with updateResult := "failed", updateErrorMessage := "timeout" } :
        SwissAirDryOTA).isUpdateInProgress = false ∧
      "2.0.0" ≠ ({ sampleOta with updateResult := "failed", updateErrorMessage := "timeout" } :
        SwissAirDryOTA).currentVersion ∧
      ∀ c ∈ (sampleTransfer HTTPUpdateResult.HTTP_UPDATE_OK "").progress, c.2 ≠ 0) ∧
    ∃ out,
      startUpdate Target.esp8266
          { sampleOta with updateResult := "failed", updateErrorMessage := "timeout" }
          "http://x/fw.bin" "deadbeef" "2.0.0"
          (sampleTransfer HTTPUpdateResult.HTTP_UPDATE_OK "") = some out ∧
      out.seen.length = 4 ∧
      (∀ o ∈ out.seen,
        o.isUpdateInProgress = true ∧ o.getUpdateResult = "" ∧ o.getUpdateErrorMessage = "") ∧
      out.effects.filter Effect.isUpdate = [Effect.update "http://x/fw.bin"] := by
  refine ⟨by decide, ?_⟩
  obtain ⟨out, _, _, h1, h2, h3, _, _, h6⟩ :=
    startUpdate_accepted_marks_in_progress Target.esp8266
      { sampleOta with updateResult := "failed", updateErrorMessage := "timeout" }
      "http://x/fw.bin" "deadbeef" "2.0.0" (sampleTransfer HTTPUpdateResult.HTTP_UPDATE_OK "")
      (by decide) (by decide) (by decide)
  exact ⟨out, h1, h2, fun o ho => ⟨(h3 o ho).1, (h3 o ho).2.1, (h3 o ho).2.2.1⟩, h6⟩

/-- The percent under the preconditions of the callback's integer type. -/
theorem percent_of_bounded (target : Target) (progress total : Int) (h0 : 0 ≤ progress)
    (hle : progress ≤ total) (hpos : 0 < total) (hfit : progress * 100 < typeLimit target) :
    percent target progress total = some (progress * 100 / total) := by
  cases target
  · exact percent_of_fitting Target.esp8266 progress total h0 hpos hfit
  · have hprod : 0 ≤ progress * 100 := by omega
    have hq0 : 0 ≤ progress * 100 / total := Int.ediv_nonneg hprod (le_of_lt hpos)
    have hq1 : progress * 100 / total ≤ 100 := Int.ediv_le_of_le_mul hpos (by omega)
    have hne : total ≠ 0 := ne_of_gt hpos
    simp only [typeLimit] at hfit
    unfold percent
    simp only [hne, if_false]
    rw [wrapSizeT_of_range (progress * 100) hprod hfit,
      wrapInt_of_range _ (by omega) (by omega)]

/-- C25: for a positive `total`, `0 ≤ progress ≤ total` and `progress * 100`
within the callback's integer type (`int` on the ESP8266, `size_t` on the
ESP32), the percent the callback computes is the rounded-down quotient
`progress * 100 / total`, it lies between 0 and 100, and a larger `progress`
against the same `total` never gives a smaller percent; for `total = 0` the
division has no value, nothing in the callback tests for it. -/
theorem percent_floor_under_preconditions (target : Target) (progress later total : Int)
    (hpos : 0 < total) (h0 : 0 ≤ progress) (hmono : progress ≤ later) (hle : later ≤ total)
    (hfit : later * 100 < typeLimit target) :
    percent target progress total = some (progress * 100 / total) ∧
      0 ≤ progress * 100 / total ∧
      progress * 100 / total ≤ 100 ∧
      percent target later total = some (later * 100 / total) ∧
      progress * 100 / total ≤ later * 100 / total ∧
      percent target progress 0 = none := by
  refine ⟨percent_of_bounded target progress total h0 (by omega) hpos (by omega), ?_, ?_,
    percent_of_bounded target later total (by omega) hle hpos hfit, ?_, ?_⟩
  · exact Int.ediv_nonneg (by omega) (le_of_lt hpos)
  · exact Int.ediv_le_of_le_mul hpos (by omega)
  · exact Int.ediv_le_ediv hpos (by omega)
  · simp [percent]

/-- C25 at a concrete input: 30 and then 40 million bytes of 40 million on the
ESP32, where the hundredfold fits `size_t` but not `int`. -/
theorem percent_floor_under_preconditions_witness :
    ((0 : Int) < 40000000 ∧ (0 : Int) ≤ 30000000 ∧ (30000000 : Int) ≤ 40000000 ∧
      (40000000 : Int) ≤ 40000000 ∧ (40000000 : Int) * 100 < typeLimit Target.esp32) ∧
    (percent Target.esp32 30000000 40000000 = some 75 ∧
      percent Target.esp32 40000000 40000000 = some 100 ∧
      percent Target.esp32 30000000 0 = none) := by
  refine ⟨by decide, ?_⟩
  obtain ⟨h1, _, _, h4, _, h6⟩ :=
    percent_floor_under_preconditions Target.esp32 30000000 40000000 40000000
      (by decide) (by decide) (by decide) (by decide) (by decide)
  exact ⟨h1, h4, h6⟩

end SwissAirDryOTA

namespace SwissAirDryMQTT

/-! ## The backoff test -/

/-- C26: while disconnected, `loop()` attempts a connection exactly when the
unsigned difference between the clock reading and `lastReconnectAttempt` is
greater than 5000.  So with the timer at its start-up value 0 no attempt is made
at a clock reading of 5000 ms or less, and with the timer at the reading of a
failed attempt no attempt is made exactly 5000 ms after it: in both cases
`loop()` does nothing. -/
theorem backoff_test_strict_from_zero (s : SwissAirDryMQTT) (millis : Nat) (connectOk : Bool)
    (hc : s.isConnected = false) :
    ((∃ c ∈ (loop s millis connectOk).2, c.isConnect = true) ↔
        ulongSub (millis % ULONG_RANGE) s.lastReconnectAttempt > 5000) ∧
      (s.lastReconnectAttempt = 0 → millis % ULONG_RANGE ≤ 5000 →
        loop s millis connectOk = (s, [])) ∧
      (∀ t0 : Nat, s.lastReconnectAttempt = t0 % ULONG_RANGE → millis = t0 + 5000 →
        loop s millis connectOk = (s, [])) := by
  unfold isConnected at hc
  refine ⟨?_, ?_, ?_⟩
  · rw [loop_attempt_iff]
    simp [hc]
  · intro hl hm
    apply loop_of_no_attempt s millis connectOk hc
    rw [hl]
    unfold ulongSub ULONG_RANGE at *
    omega
  · intro t0 hl hm
    apply loop_of_no_attempt s millis connectOk hc
    rw [hl, hm, ulongSub_readings t0 (t0 + 5000) (by omega)]
    unfold ULONG_RANGE
    omega

/-- C26 at concrete inputs: the freshly initialised device polled at 5000 ms, and
the sample device polled 5000 ms after its failed attempt at 6000 ms. -/
theorem backoff_test_strict_from_zero_witness :
    ((init mk0 "broker.local" 1883 "" "" "abc123" 0).1.isConnected = false ∧
      loop (init mk0 "broker.local" 1883 "" "" "abc123" 0).1 5000 true
        = ((init mk0 "broker.local" 1883 "" "" "abc123" 0).1, [])) ∧
    ((loop sampleSession 6000 false).1.isConnected = false ∧
      loop (loop sampleSession 6000 false).1 11000 true
        = ((loop sampleSession 6000 false).1, [])) :=
  ⟨⟨by decide,
    (backoff_test_strict_from_zero (init mk0 "broker.local" 1883 "" "" "abc123" 0).1 5000 true
      (by decide)).2.1 (by decide) (by decide)⟩,
   ⟨by decide,
    (backoff_test_strict_from_zero (loop sampleSession 6000 false).1 11000 true
      (by decide)).2.2 6000 (by decide) (by decide)⟩⟩

/-- C27: when the true time since the failed attempt at `t0` is less than `2^32`
ms, the difference `loop()` computes from the two 32-bit clock readings is that
time, whether or not the clock rolled over in between, and `loop()` attempts a
connection exactly when more than 5000 ms have passed. -/
theorem backoff_across_rollover (s : SwissAirDryMQTT) (t0 t : Nat) (connectOk : Bool)
    (hc : s.isConnected = false) (hl : s.lastReconnectAttempt = t0 % ULONG_RANGE)
    (hle : t0 ≤ t) (he : t - t0 < ULONG_RANGE) :
    ulongSub (t % ULONG_RANGE) (t0 % ULONG_RANGE) = t - t0 ∧
      ((∃ c ∈ (loop s t connectOk).2, c.isConnect = true) ↔ t - t0 > 5000) := by
  unfold isConnected at hc
  have hsub : ulongSub (t % ULONG_RANGE) (t0 % ULONG_RANGE) = t - t0 := by
    rw [ulongSub_readings t0 t hle]
    exact Nat.mod_eq_of_lt he
  refine ⟨hsub, ?_⟩
  rw [loop_attempt_iff, hl, hsub]
  simp [hc]

/-- C27 at a concrete input: the sample device fails to connect 296 ms before the
clock rolls over and is polled 5000 ms after the rollover. -/
theorem backoff_across_rollover_witness :
    ((loop sampleSession 4294967000 false).1.isConnected = false ∧
      (loop sampleSession 4294967000 false).1.lastReconnectAttempt
        = 4294967000 % ULONG_RANGE ∧
      4294967000 ≤ 4294972296 ∧ 4294972296 - 4294967000 < ULONG_RANGE) ∧
    (ulongSub (4294972296 % ULONG_RANGE) (4294967000 % ULONG_RANGE)
        = 4294972296 - 4294967000 ∧
      ((∃ c ∈ (loop (loop sampleSession 4294967000 false).1 4294972296 true).2,
          c.isConnect = true) ↔ 4294972296 - 4294967000 > 5000)) :=
  ⟨by decide,
    backoff_across_rollover (loop sampleSession 4294967000 false).1 4294967000 4294972296 true
      (by decide) (by decide) (by decide) (by decide)⟩

/-! ## Subscribing while connected -/

/-- C28: while connected, `subscribe(t)` on a registry without duplicates leaves
the registry as it is when `t` is in it and appends `t` at the end otherwise;
the result has no duplicates and begins with the old registry. -/
theorem subscribe_connected_keeps_distinct (s : SwissAirDryMQTT) (t : String)
    (transportOk : Bool) (hc : s.isConnected = true) (hnodup : s.subscribedTopics.Nodup) :
    (subscribe s t transportOk).state.subscribedTopics
        = (if t ∈ s.subscribedTopics then s.subscribedTopics else s.subscribedTopics ++ [t]) ∧
      (subscribe s t transportOk).state.subscribedTopics.Nodup ∧
      s.subscribedTopics <+: (subscribe s t transportOk).state.subscribedTopics := by
  unfold isConnected at hc
  by_cases hm : t ∈ s.subscribedTopics
  · simp [subscribe, hc, hm, hnodup]
  · have hn2 : (s.subscribedTopics ++ [t]).Nodup := by
      rw [List.nodup_append]
      exact ⟨hnodup, List.nodup_singleton t, by
        intro a ha hb
        rw [List.mem_singleton] at hb
        exact hm (hb ▸ ha)⟩
    simp [subscribe, hc, hm, hn2]

/-- C28 at concrete inputs: the sample device, connected, subscribing to a new
topic and to one it already has. -/
theorem subscribe_connected_keeps_distinct_witness :
    ((loop sampleSession 6000 true).1.isConnected = true ∧
      (loop sampleSession 6000 true).1.subscribedTopics.Nodup) ∧
    (subscribe (loop sampleSession 6000 true).1 "swissairdry/abc123/command"
        true).state.subscribedTopics
      = ["swissairdry/abc123/config", "swissairdry/abc123/control",
         "swissairdry/abc123/command"] ∧
    (subscribe (loop sampleSession 6000 true).1 "swissairdry/abc123/config"
        true).state.subscribedTopics
      = ["swissairdry/abc123/config", "swissairdry/abc123/control"] :=
  ⟨by decide,
    (subscribe_connected_keeps_distinct (loop sampleSession 6000 true).1
      "swissairdry/abc123/command" true (by decide) (by decide)).1,
    (subscribe_connected_keeps_distinct (loop sampleSession 6000 true).1
      "swissairdry/abc123/config" true (by decide) (by decide)).1⟩

end SwissAirDryMQTT

namespace Firmware

/-! ## The update dispatcher -/

/-- The `skipped` status document as text. -/
theorem skipped_payload (version : String) :
    serializeJson [("status", JsonValue.str "skipped"),
        ("message", JsonValue.str "Already on the latest version"),
        ("version", JsonValue.str version)]
      = "\x7b\"status\":\"skipped\",\"message\":\"Already on the latest version\",\"version\":"
          ++ jsonQuote version ++ "\x7d" := by
  have h1 : jsonQuote "skipped" = "\"skipped\"" := by decide
  have h2 : jsonQuote "Already on the latest version" = "\"Already on the latest version\"" := by
    decide
  rw [SwissAirDryOTA.status_payload, h1, h2]
  rfl

/-- The `started` status document as text. -/
theorem started_payload (version : String) :
    serializeJson [("status", JsonValue.str "started"), ("version", JsonValue.str version)]
      = "\x7b\"status\":\"started\",\"version\":" ++ jsonQuote version ++ "\x7d" := by
  have h1 : jsonQuote "status" = "\"status\"" := by decide
  have h2 : jsonQuote "started" = "\"started\"" := by decide
  have h3 : jsonQuote "version" = "\"version\"" := by decide
  simp only [serializeJson, List.map, jsonMember, h1, h2, h3]
  apply String.ext
  simp [String.intercalate, String.intercalate.go, String.data_append]

/-- What the dispatcher does with a parsable message while updates are enabled
and the requested version is the firmware's own. -/
theorem handleOtaUpdateMessage_of_match (fw : Firmware) (doc : OtaRequest) (publishOk : Bool)
    (transfer : Transfer) (hen : fw.otaEnabled = true)
    (hv : doc.version = FIRMWARE_VERSION) :
    handleOtaUpdateMessage fw (some doc) publishOk transfer
      = some (fw,
          [Effect.display "OTA Update", Effect.display ("Version: " ++ doc.version)] ++
          (if fw.mqtt.isConnected then
            [Effect.session (Call.publish ("swissairdry/" ++ fw.deviceId ++ "/ota/status")
              ("\x7b\"status\":\"skipped\",\"message\":\"Already on the latest version\",\"version\":"
                ++ jsonQuote doc.version ++ "\x7d") false)]
          else [])) := by
  obtain ⟨enabled, deviceId, mqtt, ota⟩ := fw
  simp only at hen
  subst hen
  cases hc : mqtt.connected <;>
    simp [handleOtaUpdateMessage, hv, skipped_payload, SwissAirDryMQTT.publish,
      SwissAirDryMQTT.isConnected, hc]

/-- What the dispatcher does with a parsable message while updates are enabled
and the requested version is not the firmware's own. -/
theorem handleOtaUpdateMessage_of_new_version (fw : Firmware) (doc : OtaRequest)
    (publishOk : Bool) (transfer : Transfer) (hen : fw.otaEnabled = true)
    (hv : doc.version ≠ FIRMWARE_VERSION) :
    handleOtaUpdateMessage fw (some doc) publishOk transfer
      = (SwissAirDryOTA.startUpdate Target.esp8266 fw.ota doc.url doc.md5_hash doc.version
            transfer).map
          (fun out => ({ fw with ota := out.state },
            [Effect.display "OTA Update", Effect.display ("Version: " ++ doc.version)] ++
            (if fw.mqtt.isConnected then
              [Effect.session (Call.publish ("swissairdry/" ++ fw.deviceId ++ "/ota/status")
                ("\x7b\"status\":\"started\",\"version\":" ++ jsonQuote doc.version ++ "\x7d")
                false)]
            else []) ++ out.effects)) := by
  obtain ⟨enabled, deviceId, mqtt, ota⟩ := fw
  simp only at hen
  subst hen
  cases hs : SwissAirDryOTA.startUpdate Target.esp8266 ota doc.url doc.md5_hash doc.version
      transfer <;>
    cases hc : mqtt.connected <;>
    simp [handleOtaUpdateMessage, hv, started_payload, SwissAirDryMQTT.publish,
      SwissAirDryMQTT.isConnected, hc, hs]

end Firmware

namespace Firmware

/-- What the dispatcher does with a parsable message while updates are disabled. -/
theorem handleOtaUpdateMessage_of_disabled (fw : Firmware) (doc : OtaRequest)
    (publishOk : Bool) (transfer : Transfer) (hoff : fw.otaEnabled = false) :
    handleOtaUpdateMessage fw (some doc) publishOk transfer
      = some (fw,
          if fw.mqtt.isConnected then
            [Effect.session (Call.publish ("swissairdry/" ++ fw.deviceId ++ "/ota/status")
              "\x7b\"status\":\"error\",\"message\":\"OTA updates are disabled\"\x7d" false)]
          else []) := by
  have hpayload : serializeJson [("status", JsonValue.str "error"),
      ("message", JsonValue.str "OTA updates are disabled")]
      = "\x7b\"status\":\"error\",\"message\":\"OTA updates are disabled\"\x7d" := by decide
  obtain ⟨enabled, deviceId, mqtt, ota⟩ := fw
  simp only at hoff
  subst hoff
  cases hc : mqtt.connected <;>
    simp [handleOtaUpdateMessage, hpayload, SwissAirDryMQTT.publish,
      SwissAirDryMQTT.isConnected, hc]

/-- C24 as stated fails while updates are disabled: asked for its own version
1.0.0, the dispatcher of a device with `config.otaEnabled` false publishes the
`OTA updates are disabled` error and no `skipped` status. -/
theorem dispatcher_version_match_while_disabled :
    (sample false true).otaEnabled = false ∧
      handleOtaUpdateMessage (sample false true)
          (some { version := "1.0.0", url := "http://x/fw.bin", md5_hash := "deadbeef" }) true
          (SwissAirDryOTA.sampleTransfer HTTPUpdateResult.HTTP_UPDATE_OK "")
        = some (sample false true,
            [Effect.session (Call.publish "swissairdry/abc123/ota/status"
              "\x7b\"status\":\"error\",\"message\":\"OTA updates are disabled\"\x7d" false)]) := by
  decide

/-- C24, as the code has it: on a version match the two paths differ.  With
updates enabled the dispatcher, asked for `FIRMWARE_VERSION`, shows the request
on the display, hands
`{"status":"skipped","message":"Already on the latest version","version":<version>}`
for `swissairdry/<deviceId>/ota/status` to the session manager (which sends it
when connected) and has no other effect, the update handler is not touched;
`startUpdate` asked for its current version publishes nothing, changes nothing
and returns false. -/
theorem version_match_paths_differ (fw : Firmware) (doc : OtaRequest) (publishOk : Bool)
    (transfer : Transfer) (target : Target) (s : SwissAirDryOTA) (url expectedMd5 : String)
    (hen : fw.otaEnabled = true) (hv : doc.version = FIRMWARE_VERSION) :
    handleOtaUpdateMessage fw (some doc) publishOk transfer
        = some (fw,
            [Effect.display "OTA Update", Effect.display ("Version: " ++ doc.version)] ++
            (if fw.mqtt.isConnected then
              [Effect.session (Call.publish ("swissairdry/" ++ fw.deviceId ++ "/ota/status")
                ("\x7b\"status\":\"skipped\",\"message\":\"Already on the latest version\",\"version\":"
                  ++ jsonQuote doc.version ++ "\x7d") false)]
            else [])) ∧
      SwissAirDryOTA.startUpdate target s url expectedMd5 s.currentVersion transfer
        = some { result := false, state := s, effects := [] } := by
  refine ⟨handleOtaUpdateMessage_of_match fw doc publishOk transfer hen hv, ?_⟩
  unfold SwissAirDryOTA.startUpdate
  split <;> simp

/-- C24 at a concrete input: the sample device, updates enabled and connected,
asked for its own version 1.0.0. -/
theorem version_match_paths_differ_witness :
    ((sample true true).otaEnabled = true ∧
      ({ version := "1.0.0", url := "http://x/fw.bin", md5_hash := "deadbeef" } :
        OtaRequest).version = FIRMWARE_VERSION) ∧
    (handleOtaUpdateMessage (sample true true)
          (some { version := "1.0.0", url := "http://x/fw.bin", md5_hash := "deadbeef" }) true
          (SwissAirDryOTA.sampleTransfer HTTPUpdateResult.HTTP_UPDATE_OK "")
        = some (sample true true,
            [Effect.display "OTA Update", Effect.display "Version: 1.0.0",
             Effect.session (Call.publish "swissairdry/abc123/ota/status"
               "\x7b\"status\":\"skipped\",\"message\":\"Already on the latest version\",\"version\":\"1.0.0\"\x7d"
               false)]) ∧
      SwissAirDryOTA.startUpdate Target.esp8266 (sample true true).ota "http://x/fw.bin"
          "deadbeef" (sample true true).ota.currentVersion
          (SwissAirDryOTA.sampleTransfer HTTPUpdateResult.HTTP_UPDATE_OK "")
        = some { result := false, state := (sample true true).ota, effects := [] }) :=
  ⟨by decide,
    version_match_paths_differ (sample true true)
      { version := "1.0.0", url := "http://x/fw.bin", md5_hash := "deadbeef" } true
      (SwissAirDryOTA.sampleTransfer HTTPUpdateResult.HTTP_UPDATE_OK "") Target.esp8266
      (sample true true).ota "http://x/fw.bin" "deadbeef" (by decide) (by decide)⟩

end Firmware

namespace Firmware

/-- C29 as stated fails while the session is down: asked for 2.0.0 with updates
enabled, the dispatcher of a device whose session manager is not connected runs
the update, and no `started` message on `swissairdry/abc123/ota/status` precedes
it, the session manager having dropped it. -/
theorem dispatcher_started_message_dropped_offline :
    (sample true false).otaEnabled = true ∧
      (sample true false).ota.currentVersion = FIRMWARE_VERSION ∧
      (sample true false).mqtt.isConnected = false ∧
      (handleOtaUpdateMessage (sample true false)
          (some { version := "2.0.0", url := "http://x/fw.bin", md5_hash := "deadbeef" }) true
          (SwissAirDryOTA.sampleTransfer HTTPUpdateResult.HTTP_UPDATE_OK "")).map Prod.snd
        = some [Effect.display "OTA Update", Effect.display "Version: 2.0.0",
            Effect.onProgress, Effect.update "http://x/fw.bin",
            Effect.client (Call.publish "swissairdry/abc123/ota/progress"
              "\x7b\"progress\":0\x7d" false),
            Effect.client (Call.publish "swissairdry/abc123/ota/progress"
              "\x7b\"progress\":50\x7d" false),
            Effect.client (Call.publish "swissairdry/abc123/ota/progress"
              "\x7b\"progress\":100\x7d" false),
            Effect.client (Call.publish "swissairdry/abc123/ota/status"
              "\x7b\"status\":\"completed\",\"message\":\"Update successful\",\"version\":\"2.0.0\"\x7d"
              false),
            Effect.delay 1000] := by
  decide

/-- C29, as the code has it: `handleOtaUpdateMessage` reaches `ota.startUpdate`
only when updates are enabled and the requested version is not
`FIRMWARE_VERSION`; in every other case the update handler is untouched and the
effects are display and session-manager calls only.  When it does call
`startUpdate`, one call of the session manager's `publish` with
`{"status":"started","version":<version>}` for
`swissairdry/<deviceId>/ota/status` precedes everything `startUpdate` does; the
message is sent when the session is connected and dropped otherwise.  On a
device whose update handler was initialised with `FIRMWARE_VERSION` the
requested version then differs from the handler's current version, so the
version test of `startUpdate` cannot reject and the transfer collaborator is
called. -/
theorem dispatcher_shadows_preflight (fw : Firmware) (doc : OtaRequest) (publishOk : Bool)
    (transfer : Transfer) :
    (¬ (fw.otaEnabled = true ∧ doc.version ≠ FIRMWARE_VERSION) →
        ∃ effects, handleOtaUpdateMessage fw (some doc) publishOk transfer = some (fw, effects) ∧
          ∀ e ∈ effects, (∃ m, e = Effect.display m) ∨ (∃ c, e = Effect.session c)) ∧
      (fw.otaEnabled = true ∧ doc.version ≠ FIRMWARE_VERSION →
        handleOtaUpdateMessage fw (some doc) publishOk transfer
          = (SwissAirDryOTA.startUpdate Target.esp8266 fw.ota doc.url doc.md5_hash doc.version
                transfer).map
              (fun out => ({ fw with ota := out.state },
                [Effect.display "OTA Update", Effect.display ("Version: " ++ doc.version)] ++
                (if fw.mqtt.isConnected then
                  [Effect.session (Call.publish ("swissairdry/" ++ fw.deviceId ++ "/ota/status")
                    ("\x7b\"status\":\"started\",\"version\":" ++ jsonQuote doc.version ++ "\x7d")
                    false)]
                else []) ++ out.effects)) ∧
        (fw.ota.currentVersion = FIRMWARE_VERSION →
          doc.version ≠ fw.ota.currentVersion ∧
          (fw.ota.isUpdateInProgress = false → (∀ c ∈ transfer.progress, c.2 ≠ 0) →
            ∃ out, SwissAirDryOTA.startUpdate Target.esp8266 fw.ota doc.url doc.md5_hash
                doc.version transfer = some out ∧
              Effect.update doc.url ∈ out.effects))) := by
  constructor
  · intro hnot
    cases hen : fw.otaEnabled
    · refine ⟨_, handleOtaUpdateMessage_of_disabled fw doc publishOk transfer hen, ?_⟩
      intro e he
      split at he
      · rw [List.mem_singleton] at he
        exact Or.inr ⟨_, he⟩
      · simp at he
    · have hv : doc.version = FIRMWARE_VERSION := by
        by_contra hne
        exact hnot ⟨hen, hne⟩
      refine ⟨_, handleOtaUpdateMessage_of_match fw doc publishOk transfer hen hv, ?_⟩
      intro e he
      rw [List.mem_append] at he
      rcases he with h | h
      · simp only [List.mem_cons, List.mem_singleton, List.not_mem_nil, or_false] at h
        rcases h with h | h
        · exact Or.inl ⟨_, h⟩
        · exact Or.inl ⟨_, h⟩
      · split at h
        · rw [List.mem_singleton] at h
          exact Or.inr ⟨_, h⟩
        · simp at h
  · intro ⟨hen, hv⟩
    refine ⟨handleOtaUpdateMessage_of_new_version fw doc publishOk transfer hen hv, ?_⟩
    intro hinit
    have hver : doc.version ≠ fw.ota.currentVersion := by rw [hinit]; exact hv
    refine ⟨hver, ?_⟩
    intro hidle hrun
    obtain ⟨ps, hps⟩ := SwissAirDryOTA.percents_exist Target.esp8266 transfer.progress hrun
    have h := SwissAirDryOTA.startUpdate_of_percents Target.esp8266 fw.ota doc.url
      doc.md5_hash doc.version transfer ps hidle hver hps
    cases hret : transfer.ret <;> rw [hret] at h <;> exact ⟨_, h, by simp⟩

/-- C29 at a concrete input: the sample device, updates enabled and connected,
asked for 2.0.0. -/
theorem dispatcher_shadows_preflight_witness :
    ((sample true true).otaEnabled = true ∧
      ({ version := "2.0.0", url := "http://x/fw.bin", md5_hash := "deadbeef" } :
        OtaRequest).version ≠ FIRMWARE_VERSION ∧
      (sample true true).ota.currentVersion = FIRMWARE_VERSION) ∧
    (handleOtaUpdateMessage (sample true true)
          (some { version := "2.0.0", url := "http://x/fw.bin", md5_hash := "deadbeef" }) true
          (SwissAirDryOTA.sampleTransfer HTTPUpdateResult.HTTP_UPDATE_OK "")
        = (SwissAirDryOTA.startUpdate Target.esp8266 (sample true true).ota "http://x/fw.bin"
              "deadbeef" "2.0.0"
              (SwissAirDryOTA.sampleTransfer HTTPUpdateResult.HTTP_UPDATE_OK "")).map
            (fun out => ({ sample true true with ota := out.state },
              [Effect.display "OTA Update", Effect.display "Version: 2.0.0",
               Effect.session (Call.publish "swissairdry/abc123/ota/status"
                "\x7b\"status\":\"started\",\"version\":\"2.0.0\"\x7d" false)]
                ++ out.effects)) ∧
      "2.0.0" ≠ (sample true true).ota.currentVersion) := by
  refine ⟨by decide, ?_⟩
  obtain ⟨h1, h2⟩ :=
    (dispatcher_shadows_preflight (sample true true)
      { version := "2.0.0", url := "http://x/fw.bin", md5_hash := "deadbeef" } true
      (SwissAirDryOTA.sampleTransfer HTTPUpdateResult.HTTP_UPDATE_OK "")).2
      ⟨by decide, by decide⟩
  exact ⟨h1, (h2 (by decide)).1⟩

/-! ## Fan control -/

/-- From a speed between 0 and 100 that is a multiple of 25 the button gives the
documented cycle and stays a percentage. -/
theorem handleButtonPress_cycle :
    (handleButtonPress 0).1 = 25 ∧ (handleButtonPress 25).1 = 50 ∧
      (handleButtonPress 50).1 = 75 ∧ (handleButtonPress 75).1 = 100 ∧
      (handleButtonPress 100).1 = 0 := by
  decide

/-- A control message leaves the fan speed between 0 and 100 when it was. -/
theorem handleControlMessage_in_range (currentFanSpeed : Int)
    (message : Option ControlRequest)
    (h : 0 ≤ currentFanSpeed ∧ currentFanSpeed ≤ 100) :
    0 ≤ (handleControlMessage currentFanSpeed message).1 ∧
      (handleControlMessage currentFanSpeed message).1 ≤ 100 := by
  unfold handleControlMessage
  cases message with
  | none => exact h
  | some doc =>
    cases hf : doc.fan_speed with
    | none => simpa [hf] using h
    | some requested =>
      simp only [hf, constrain]
      split
      · omega
      · split <;> omega

/-- C30 on the code: a control message setting the fan to 90 % followed by one
click of the button leaves `currentFanSpeed` at 115, above 100, and the fan pin
is written with 1176, above the PWM range that ends at 1023. -/
theorem button_after_control_leaves_percent_range :
    fanSpeedAfter 0
        [ControlEvent.controlMessage (some { fan_speed := some 90, power := none }),
         ControlEvent.buttonPress] = 115 ∧
      ¬ (fanSpeedAfter 0
        [ControlEvent.controlMessage (some { fan_speed := some 90, power := none }),
         ControlEvent.buttonPress] ≤ 100) ∧
      controlStep 90 ControlEvent.buttonPress
        = (115, [ControlEffect.analogWrite Pin.FAN_CONTROL_PIN 1176,
                 ControlEffect.showFanSpeed 115, ControlEffect.publishStatus 115]) := by
  decide

end Firmware
